import Mathlib

/-!
Shallow embedding of the alert-pipeline core of the DiscordAlertingBot
repository (TypeScript), for checking its specification claims.

Conventions of the embedding:
* JS epoch-millisecond timestamps (`Date.now()`, `new Date(s).getTime()`)
  are modelled as `Nat` values in milliseconds.
* The Redis key-value store is modelled as an association list from key to
  value; for the dedup store the value is the absolute expiry time in ms
  (a `SETEX` with `ttl` seconds performed at time `now` stores
  `now + 1000 * ttl`), and a key is alive at `now` when `now` is strictly
  before its expiry.
* `JSON.parse` is not re-implemented; functions that parse a message body
  take a `parseJson : String → Option Json` parameter standing for the
  ambient JS parser (`none` models a parse exception).
* Sequential `await` chains are modelled by explicit state passing.
-/

namespace DiscordAlertingBot

/-- Association-list lookup (first match wins), modelling both JS object
property access and the Redis `GET` of a known key set. -/
def alistLookup {α : Type} (st : List (String × α)) (key : String) : Option α :=
  match st with
  | [] => none
  | (k, v) :: rest => if k = key then some v else alistLookup rest key

/-- Remove every binding of `key`, modelling Redis `DEL`. -/
def alistErase {α : Type} (st : List (String × α)) (key : String) : List (String × α) :=
  st.filter (fun kv => kv.1 != key)

/-- Insert-or-replace a binding, modelling Redis `SETEX` / `SET`. -/
def alistSet {α : Type} (st : List (String × α)) (key : String) (v : α) : List (String × α) :=
  (key, v) :: alistErase st key

/-! ### Dedup store (`src/store/dedup.ts`) -/

/-- Dedup store state: key → absolute expiry time (ms). -/
abbrev DedupStore := List (String × Nat)

def DEDUP_KEY_PREFIX : String := "dedup:"

def dedupKey (fingerprint : String) : String := DEDUP_KEY_PREFIX ++ fingerprint

/-- A Redis key is alive (a `GET` returns a value) when `now` is before its
absolute expiry. -/
def redisAlive (st : DedupStore) (now : Nat) (key : String) : Bool :=
  match alistLookup st key with
  | some expiry => now < expiry
  | none => false

/-- `Math.max(1, Math.ceil(ttlMs / 1000))` on naturals. -/
def ttlSecOf (ttlMs : Nat) : Nat := max 1 ((ttlMs + 999) / 1000)

/-- `isDuplicate(fingerprint, ttlMs)` from `src/store/dedup.ts`: a `GET`
followed by a `SETEX` when absent. First component is the returned Bool
(duplicate?), second the store afterwards. -/
def isDuplicate (now : Nat) (fingerprint : String) (ttlMs : Nat) (st : DedupStore) :
    Bool × DedupStore :=
  let key := dedupKey fingerprint
  let ttlSec := ttlSecOf ttlMs
  if redisAlive st now key then (true, st)
  else (false, alistSet st key (now + 1000 * ttlSec))

/-- The first round-trip of `isDuplicate`: `await redis.get(key)`
interpreted as a presence test. -/
def isDuplicateGetPhase (now : Nat) (fingerprint : String) (st : DedupStore) : Bool :=
  redisAlive st now (dedupKey fingerprint)

/-- The second round-trip of `isDuplicate`:
`await redis.setex(key, ttlSec, "1")`, executed when the `GET` saw no
value. -/
def isDuplicateSetPhase (now : Nat) (fingerprint : String) (ttlMs : Nat)
    (st : DedupStore) : DedupStore :=
  alistSet st (dedupKey fingerprint) (now + 1000 * ttlSecOf ttlMs)

/-- Two concurrent `isDuplicate` calls for the same fingerprint under the
interleaving in which both `GET` round-trips are served before either
`SETEX` (legal, since the source issues two separate Redis commands).
Returns both results and the final store. -/
def isDuplicateInterleaved (now : Nat) (fingerprint : String) (ttlMs : Nat)
    (st : DedupStore) : Bool × Bool × DedupStore :=
  let r1 := isDuplicateGetPhase now fingerprint st
  let r2 := isDuplicateGetPhase now fingerprint st
  let st1 := if r1 then st else isDuplicateSetPhase now fingerprint ttlMs st
  let st2 := if r2 then st1 else isDuplicateSetPhase now fingerprint ttlMs st1
  (r1, r2, st2)

/-- `clearDedup(fingerprint)`: `DEL dedup:<fingerprint>`. -/
def clearDedup (fingerprint : String) (st : DedupStore) : DedupStore :=
  alistErase st (dedupKey fingerprint)

/-- `setDedupTtl(fingerprint, ttlMs)`: unconditional `SETEX`. -/
def setDedupTtl (now : Nat) (fingerprint : String) (ttlMs : Nat) (st : DedupStore) : DedupStore :=
  alistSet st (dedupKey fingerprint) (now + 1000 * ttlSecOf ttlMs)

/-! ### Alert data model (`src/types/alert.ts`) -/

/-- `AlertState` from `src/types/alert.ts`. -/
inductive AlertState where
  | firing
  | acknowledged
  | resolved
deriving DecidableEq, Repr

/-- The `status` enum of the alert API payload (zod:
`z.enum(["firing", "resolved", "acknowledged"])`). -/
inductive AStatus where
  | firing
  | resolved
  | acknowledged
deriving DecidableEq, Repr

/-- One `{ name, value }` entry of `AlertApiPayload.fields`. -/
structure AlertField where
  name : String
  value : String
deriving DecidableEq, Repr

/-- `AlertApiPayload` from `src/types/alert.ts`. Optional fields are
`Option`s; `severity` keeps its string form as its runtime consumers
compare it as a string. -/
structure AlertApiPayload where
  alertId : String
  resource : Option String
  title : String
  description : Option String
  status : AStatus
  severity : Option String
  fields : Option (List AlertField)
  startedAt : String
  resolvedAt : Option String
  generatorURL : Option String
  channelId : String
  ruleName : Option String
  thumbnailUrl : Option String
  source : Option String
deriving DecidableEq, Repr

/-- `StoredAlert` from `src/types/alert.ts`; ISO timestamp strings are
modelled by their epoch-ms value (`new Date(s).getTime()`). -/
structure StoredAlert where
  messageId : String
  channelId : String
  threadId : Option String
  state : AlertState
  updatedAt : Nat
  ruleName : Option String
  acknowledgedBy : Option String
  resolvedBy : Option String
  severity : Option String
  mentionLevel : Option Nat
  resolvedAt : Option Nat
  acknowledgedAt : Option Nat
deriving DecidableEq, Repr

/-- `AlertTypeConfig` from `src/types/config.ts` (the typed runtime view
used by the processor, Discord client and escalation loop). -/
structure AlertTypeConfig where
  channelId : String
  suppressWindowMs : Option Nat
  importantLabels : Option (List String)
  hiddenLabels : Option (List String)
  thumbnailUrl : Option String
  mentions : Option (List String)
deriving DecidableEq, Repr

/-- `AlertsConfig = Record<string, AlertTypeConfig>`. -/
abbrev AlertsConfig := List (String × AlertTypeConfig)

/-! ### Incident store (`src/store/redis.ts`) -/

/-- `alertKey(alertId, resource)`. -/
def alertKey (alertId : String) (resource : Option String) : String :=
  "alert:" ++ alertId ++ ":" ++ resource.getD "default"

/-- Incident store: alert key → stored record. (The 7-day TTL refresh of
`setStoredAlert` is irrelevant to the claims and not modelled.) -/
abbrev AlertStore := List (String × StoredAlert)

/-! ### Processor (`src/services/processor.ts`, `processOneAlertPayload`) -/

def RESOLVED_NEW_ALERT_AFTER_MS : Nat := 30 * 60 * 1000

def ACK_NEW_INCIDENT_AFTER_MS : Nat := 90 * 60 * 1000

/-- The effective resolve time consulted by the lifecycle-expiry check
(line `const resolvedAt = stored?.resolvedAt ?? (stored?.state ===
"resolved" ? stored?.updatedAt : null)`). -/
def resolvedAtEffective (s : StoredAlert) : Option Nat :=
  s.resolvedAt.orElse
    (fun _ => if s.state = AlertState.resolved then some s.updatedAt else none)

/-- `resolvedAt && Date.now() - new Date(resolvedAt).getTime() >
RESOLVED_NEW_ALERT_AFTER_MS`. -/
def expiredResolvedAt (now : Nat) (s : StoredAlert) : Bool :=
  match resolvedAtEffective s with
  | some t => decide (t + RESOLVED_NEW_ALERT_AFTER_MS < now)
  | none => false

/-- `stored?.state === "acknowledged" && stored.acknowledgedAt && Date.now()
- new Date(stored.acknowledgedAt).getTime() > ACK_NEW_INCIDENT_AFTER_MS`. -/
def expiredAcknowledged (now : Nat) (s : StoredAlert) : Bool :=
  if s.state = AlertState.acknowledged then
    match s.acknowledgedAt with
    | some t => decide (t + ACK_NEW_INCIDENT_AFTER_MS < now)
    | none => false
  else false

/-- Observable side effects of one processor run, in program order.
Metric counters and log lines are not modelled. -/
inductive ProcAction where
  | clearDedupAct (fingerprint : String)
  | isDuplicateAct (fingerprint : String) (ttlMs : Nat)
  | deleteStoredAct (alertId : String) (resource : Option String)
  | emitAct (payload : AlertApiPayload)
  | auditAct (alertId : String)
deriving DecidableEq, Repr

/-- State after a processor run plus the trace of its side effects. -/
structure ProcResult where
  dedup : DedupStore
  alerts : AlertStore
  trace : List ProcAction
deriving Repr

/-- Abstract `sendOrUpdateAlert`: consumes the payload and the incident
store, returns `some (messageId, store)` on success and `none` when the
Discord call throws. Its type records that the chat emit never touches the
dedup store (true of the source: `sendOrUpdateAlert` only reads and writes
the incident store and the Discord API). -/
abbrev Emit := AlertApiPayload → AlertStore → Option (String × AlertStore)

/-- The trailing audit action of one processor run: present only when the
emit succeeded and `DATABASE_URL` is set. -/
def auditTail (dbUrl : Bool) (alertId : String)
    (emitRes : Option (String × AlertStore)) : List ProcAction :=
  match emitRes with
  | some _ => if dbUrl then [ProcAction.auditAct alertId] else []
  | none => []

/-- Lines 41-63 of `processOneAlertPayload`: lifecycle-expiry check, chat
emit (inside try/catch) and optional audit insert. `tr` is the trace of the
dedup gate that ran before. -/
def procAfterDedup (emit : Emit) (dbUrl : Bool) (now : Nat) (p : AlertApiPayload)
    (dedup1 : DedupStore) (alerts0 : AlertStore) (tr : List ProcAction) : ProcResult :=
  let key := alertKey p.alertId p.resource
  let stored := alistLookup alerts0 key
  let del1 := match stored with
    | some s => expiredResolvedAt now s
    | none => false
  let alerts1 := if del1 then alistErase alerts0 key else alerts0
  let del2 := match stored with
    | some s => expiredAcknowledged now s
    | none => false
  let alerts2 := if del2 then alistErase alerts1 key else alerts1
  let dels := (if del1 then [ProcAction.deleteStoredAct p.alertId p.resource] else []) ++
      (if del2 then [ProcAction.deleteStoredAct p.alertId p.resource] else [])
  let emitRes := emit p alerts2
  { dedup := dedup1
    alerts := match emitRes with
      | some r => r.2
      | none => alerts2
    trace := tr ++ dels ++ ProcAction.emitAct p :: auditTail dbUrl p.alertId emitRes }

/-- `processOneAlertPayload` from `src/services/processor.ts`. `dbUrl`
models `process.env.DATABASE_URL` being set. -/
def processOneAlertPayload (emit : Emit) (cfg : AlertsConfig) (dbUrl : Bool) (now : Nat)
    (p : AlertApiPayload) (dedup0 : DedupStore) (alerts0 : AlertStore) : ProcResult :=
  let ruleName := p.ruleName.getD "default"
  match alistLookup cfg ruleName with
  | none => { dedup := dedup0, alerts := alerts0, trace := [] }
  | some config =>
    if config.channelId = "" then { dedup := dedup0, alerts := alerts0, trace := [] }
    else
      let suppressWindowMs := config.suppressWindowMs.getD (5 * 60 * 1000)
      if p.status = AStatus.resolved then
        procAfterDedup emit dbUrl now p (clearDedup p.alertId dedup0) alerts0
          [ProcAction.clearDedupAct p.alertId]
      else
        let dup := isDuplicate now p.alertId suppressWindowMs dedup0
        if dup.1 then
          { dedup := dup.2, alerts := alerts0,
            trace := [ProcAction.isDuplicateAct p.alertId suppressWindowMs] }
        else
          procAfterDedup emit dbUrl now p dup.2 alerts0
            [ProcAction.isDuplicateAct p.alertId suppressWindowMs]

/-! ### Discord client constants and button custom ids
(`src/discord/client.ts`) -/

def ACK_MIN_SUPPRESS_MS : Nat := 10 * 60 * 1000

def MENTION_ESCALATION_STEP_MS : Nat := 5 * 60 * 1000

def TROUBLESHOOT_BUTTON_CUSTOM_ID : String := "alert_troubleshoot"

def RESOLVE_BUTTON_CUSTOM_ID : String := "alert_resolve"

def troubleshootButtonId (alertId : String) (resource : Option String) : String :=
  TROUBLESHOOT_BUTTON_CUSTOM_ID ++ ":" ++ alertId ++ ":" ++ resource.getD ""

def resolveButtonId (alertId : String) (resource : Option String) : String :=
  RESOLVE_BUTTON_CUSTOM_ID ++ ":" ++ alertId ++ ":" ++ resource.getD ""

/-- `s.toLowerCase()`. -/
def lowerStr (s : String) : String := ⟨s.data.map Char.toLower⟩

/-! ### Mention escalation (`startMentionEscalation` in
`src/discord/client.ts`) -/

/-- The per-record body of one escalation tick (the inside of the `for`
loop of `startMentionEscalation`), applied to the record fetched for one
alert key. `sendOk` models the channel fetch succeeding, being a
non-DM text channel, and the `send` not throwing; when it is `false`
nothing is sent or persisted. Returns `some (mentionedUserId, persisted
record)` when a mention is posted, `none` when the record is skipped. -/
def escalationTickRecord (cfg : AlertsConfig) (now : Nat) (stored : StoredAlert)
    (sendOk : Bool) : Option (String × StoredAlert) :=
  if stored.state = AlertState.resolved ∨ stored.state = AlertState.acknowledged then none
  else if lowerStr (stored.severity.getD "") ≠ "critical" then none
  else
    match (alistLookup cfg (stored.ruleName.getD "")).bind (fun c => c.mentions) with
    | none => none
    | some mentions =>
      if mentions.length = 0 then none
      else
        let level := stored.mentionLevel.getD 0
        if mentions.length ≤ level then none
        else
          let elapsed := now - stored.updatedAt
          let threshold := (level + 1) * MENTION_ESCALATION_STEP_MS
          if elapsed < threshold then none
          else
            match mentions[level]? with
            | none => none
            | some userId =>
              if userId = "" then none
              else if sendOk then
                some (userId, { stored with mentionLevel := some (level + 1) })
              else none

/-! ### Acknowledge button handler (`src/discord/client.ts`,
`interactionCreate` branch for `ACK_BUTTON_CUSTOM_ID`) -/

/-- Result of the ack-button handler: stores afterwards plus the custom
ids of the buttons left on the re-rendered message. -/
structure AckResult where
  dedup : DedupStore
  alerts : AlertStore
  components : List String
deriving Repr

/-- The Acknowledge-button branch of the `interactionCreate` handler.
`hasEmbed` models `interaction.message.embeds[0]` being present (when it
is absent the handler strips all components and returns early). The
optional `updateAlertEventAck` audit write has no modelled state. -/
def ackButtonHandler (cfg : AlertsConfig) (now : Nat) (userId : String)
    (alertId : String) (resource : Option String) (hasEmbed : Bool)
    (dedup0 : DedupStore) (alerts0 : AlertStore) : AckResult :=
  match alistLookup alerts0 (alertKey alertId resource) with
  | none => { dedup := dedup0, alerts := alerts0, components := [] }
  | some stored =>
    let typeConfig := alistLookup cfg (stored.ruleName.getD "")
    let suppressWindowMs := (typeConfig.bind (fun c => c.suppressWindowMs)).getD (5 * 60 * 1000)
    let ackSuppressMs := max suppressWindowMs ACK_MIN_SUPPRESS_MS
    let dedup1 := setDedupTtl now alertId ackSuppressMs dedup0
    let newStored : StoredAlert := { stored with
      state := AlertState.acknowledged
      acknowledgedBy := some userId
      acknowledgedAt := some now
      updatedAt := now }
    let alerts1 := alistSet alerts0 (alertKey alertId resource) newStored
    { dedup := dedup1, alerts := alerts1,
      components := if hasEmbed then
          [troubleshootButtonId alertId resource, resolveButtonId alertId resource]
        else [] }

/-! ### String helpers (JS semantics on `List Char`) -/

/-- ASCII whitespace recognised by the model of JS `trim()` / `\s`. -/
def isWsChar (c : Char) : Bool :=
  c = ' ' || c = '\t' || c = '\n' || c = '\r' || c = '\x0b' || c = '\x0c'

/-- JS `String.prototype.trim` on a char list. -/
def trimChars (l : List Char) : List Char :=
  ((l.dropWhile isWsChar).reverse.dropWhile isWsChar).reverse

/-- JS `s.trim()`. -/
def trimStr (s : String) : String := ⟨trimChars s.data⟩

/-- JS `s.slice(0, n)` for a non-negative `n`. -/
def strTake (s : String) (n : Nat) : String := ⟨s.data.take n⟩

/-- `s?.trim()` used as a Boolean guard: some and non-blank. -/
def optTrimTruthy (s : Option String) : Bool :=
  match s with
  | some s0 => !(trimChars s0.data).isEmpty
  | none => false

theorem dropWhile_length_le (p : Char → Bool) (l : List Char) :
    (l.dropWhile p).length ≤ l.length := by
  induction l with
  | nil => simp
  | cons c rest ih =>
    by_cases h : p c
    · simp only [List.dropWhile, h, List.length_cons]
      exact Nat.le_succ_of_le ih
    · simp [List.dropWhile, h]

/-- Scanner for `squashWs`: `prevWs` records whether the previous
character belonged to a whitespace run that has already emitted its
underscore. -/
def squashWsGo (prevWs : Bool) : List Char → List Char
  | [] => []
  | c :: rest =>
    if isWsChar c then
      if prevWs then squashWsGo true rest else '_' :: squashWsGo true rest
    else c :: squashWsGo false rest

/-- `.replace(/\s+/g, "_")`: each maximal whitespace run becomes one
underscore. -/
def squashWs (l : List Char) : List Char := squashWsGo false l

/-- JS `s.replace("T", " ")` (first occurrence only) for the single
character `T`. -/
def replaceFirstT (l : List Char) : List Char :=
  match l with
  | [] => []
  | c :: rest => if c = 'T' then ' ' :: rest else c :: replaceFirstT rest

/-! ### Embed field builders (`src/discord/embed.ts`) -/

/-- `EmbedField` (`inline?: boolean | null`; `none` covers both absent and
null, which the source only ever reads through `?? true`). -/
structure EmbedFieldE where
  name : String
  value : String
  inline : Option Bool
deriving DecidableEq, Repr

/-- `ResolvedField` (`inline: boolean`). -/
structure ResolvedFieldE where
  name : String
  value : String
  inline : Bool
deriving DecidableEq, Repr

/-- The map `f => ({ name: f.name, value: f.value, inline: f.inline ?? true })`. -/
def defaultInlineField (f : EmbedFieldE) : ResolvedFieldE :=
  ⟨f.name, f.value, f.inline.getD true⟩

/-- The filter of `buildResolvedFields`. -/
def keepNonResolvedMeta (f : EmbedFieldE) : Bool :=
  !(f.name = "Status" || f.name = "Resolved by" || f.name = "Resolved at")

/-- `resolvedAt.slice(0, 19).replace("T", " ")`. -/
def fmtResolvedAt (resolvedAt : String) : String :=
  ⟨replaceFirstT (strTake resolvedAt 19).data⟩

/-- `buildResolvedFields` from `src/discord/embed.ts`. -/
def buildResolvedFields (existingFields : List EmbedFieldE) (userId : String)
    (resolvedAt : String) : List ResolvedFieldE :=
  (existingFields.filter keepNonResolvedMeta).map defaultInlineField ++
    [⟨"Status", "resolved", true⟩,
     ⟨"Resolved by", "<@" ++ userId ++ ">", true⟩,
     ⟨"Resolved at", fmtResolvedAt resolvedAt, true⟩]

/-- The filter of `buildAcknowledgedFields`. -/
def keepNonAckMeta (f : EmbedFieldE) : Bool :=
  !(f.name = "Status" || f.name = "Acknowledged by")

/-- `buildAcknowledgedFields` from `src/discord/embed.ts`. -/
def buildAcknowledgedFields (existingFields : List EmbedFieldE) (userId : String) :
    List ResolvedFieldE :=
  (existingFields.filter keepNonAckMeta).map defaultInlineField ++
    [⟨"Status", "acknowledged", true⟩,
     ⟨"Acknowledged by", "<@" ++ userId ++ ">", true⟩]

/-- The structural coercion under which a `ResolvedField` value is read
back as an `EmbedField` (TypeScript does this implicitly). -/
def toEmbedField (f : ResolvedFieldE) : EmbedFieldE := ⟨f.name, f.value, some f.inline⟩

/-! ### JSON values (runtime JS values reaching the validator and the
message parsers) -/

/-- A JSON value as produced by `JSON.parse`. JS objects are association
lists in property-insertion order; an absent property and a property whose
value is `undefined` are both modelled by a missing key (the source never
distinguishes them). -/
inductive Json where
  | null : Json
  | bool (b : Bool) : Json
  | num (n : Int) : Json
  | str (s : String) : Json
  | arr (items : List Json) : Json
  | obj (fields : List (String × Json)) : Json

/-- Property lookup on a JSON object field list (first match). -/
def jLookup (fields : List (String × Json)) (key : String) : Option Json :=
  match fields with
  | [] => none
  | (k, v) :: rest => if k = key then some v else jLookup rest key

/-! ### Config validation (`src/services/config.ts`) -/

/-- The value of one validated entry as built by `validateAlertsConfig`:
`channelId` is checked to be a string; `suppressWindowMs`,
`importantLabels`, `hiddenLabels` and `thumbnailUrl` are passed through
unchanged (whatever runtime value they hold); `mentions` is kept only when
it is an array, filtered to its string elements. -/
structure AlertTypeConfigV where
  channelId : String
  suppressWindowMs : Option Json
  importantLabels : Option Json
  hiddenLabels : Option Json
  thumbnailUrl : Option Json
  mentions : Option (List String)

/-- `xs.filter((m): m is string => typeof m === "string")`, keeping the
string payloads. -/
def stringElems (xs : List Json) : List String :=
  match xs with
  | [] => []
  | Json.str s :: rest => s :: stringElems rest
  | _ :: rest => stringElems rest

/-- The entry object built by `validateAlertsConfig` for one key that
passed `isAlertTypeConfig`. -/
def mkValidatedEntry (fields : List (String × Json)) (channelId : String) :
    AlertTypeConfigV :=
  { channelId := channelId
    suppressWindowMs := jLookup fields "suppressWindowMs"
    importantLabels := jLookup fields "importantLabels"
    hiddenLabels := jLookup fields "hiddenLabels"
    thumbnailUrl := jLookup fields "thumbnailUrl"
    mentions := match jLookup fields "mentions" with
      | some (Json.arr xs) => some (stringElems xs)
      | _ => none }

/-- `isAlertTypeConfig(v)`: `v` non-null, `typeof v === "object"`, and
`v.channelId` a string. (A JS array passes the `typeof` test but has no
`channelId` property, so it is rejected by the `in` check.) -/
def isAlertTypeConfigJ (v : Json) : Bool :=
  match v with
  | Json.obj fields =>
    match jLookup fields "channelId" with
    | some (Json.str _) => true
    | _ => false
  | _ => false

/-- The body of the entry loop of `validateAlertsConfig`: the
`isAlertTypeConfig` guard (early `return { ok: false, ... }`) and the
`out[key] = { ... }` assignment for one entry. -/
def validateEntry (key : String) : Json → Except String AlertTypeConfigV
  | Json.obj fields =>
    (match jLookup fields "channelId" with
     | some (Json.str cid) => Except.ok (mkValidatedEntry fields cid)
     | _ => Except.error ("Entry " ++ key ++ " must be an object with channelId (string)"))
  | _ => Except.error ("Entry " ++ key ++ " must be an object with channelId (string)")

/-- The entry loop of `validateAlertsConfig` over `Object.entries(data)`. -/
def validateEntries (entries : List (String × Json)) :
    Except String (List (String × AlertTypeConfigV)) :=
  match entries with
  | [] => Except.ok []
  | (key, v) :: rest =>
    match validateEntry key v with
    | Except.ok entry =>
      match validateEntries rest with
      | Except.ok out => Except.ok ((key, entry) :: out)
      | Except.error e => Except.error e
    | Except.error e => Except.error e

/-- `validateAlertsConfig` from `src/services/config.ts`. -/
def validateAlertsConfig (data : Json) :
    Except String (List (String × AlertTypeConfigV)) :=
  match data with
  | Json.obj entries => validateEntries entries
  | _ => Except.error "Config must be a JSON object"

/-- A present optional property of a serialized entry. -/
def optField (name : String) (v : Option Json) : List (String × Json) :=
  match v with
  | some j => [(name, j)]
  | none => []

/-- The property list of the JS object a validated entry is. -/
def serializeEntryFields (e : AlertTypeConfigV) : List (String × Json) :=
  ("channelId", Json.str e.channelId) ::
    (optField "suppressWindowMs" e.suppressWindowMs ++
     optField "importantLabels" e.importantLabels ++
     optField "hiddenLabels" e.hiddenLabels ++
     optField "thumbnailUrl" e.thumbnailUrl ++
     (match e.mentions with
      | some ms => [("mentions", Json.arr (ms.map Json.str))]
      | none => []))

/-- The JS value a validated entry is at runtime. -/
def serializeEntry (e : AlertTypeConfigV) : Json := Json.obj (serializeEntryFields e)

/-- The JS value a validated config is at runtime (what gets re-validated
when `validateAlertsConfig` is applied to its own output). -/
def serializeAlertsConfig (c : List (String × AlertTypeConfigV)) : Json :=
  Json.obj (c.map (fun kv => (kv.1, serializeEntry kv.2)))

/-! ### Grafana webhook normalizer (`src/services/processor.ts`) -/

/-- A regex `\w` character: `[A-Za-z0-9_]`. -/
def isWordChar (c : Char) : Bool :=
  (c ≥ 'a' && c ≤ 'z') || (c ≥ 'A' && c ≤ 'Z') || (c ≥ '0' && c ≤ '9') || c = '_'

/-- Match the literal `(<nil>)` at the head, returning the rest. -/
def matchNilTail (l : List Char) : Option (List Char) :=
  if l.take 7 = ['(', '<', 'n', 'i', 'l', '>', ')'] then some (l.drop 7) else none

/-- Match the regex `%!\w*\(<nil>\)` (`BROKEN_TEMPLATE`) at the head of
the list, returning the rest after the match. Since `\w` and `(` are
disjoint, greedy `\w*` followed by the literal tail is exact. -/
def matchBroken (l : List Char) : Option (List Char) :=
  match l with
  | '%' :: '!' :: rest => matchNilTail (rest.dropWhile isWordChar)
  | _ => none

theorem matchNilTail_length {l r : List Char} (h : matchNilTail l = some r) :
    r.length + 7 ≤ l.length := by
  unfold matchNilTail at h
  by_cases htake : l.take 7 = ['(', '<', 'n', 'i', 'l', '>', ')']
  · simp only [htake, if_pos, Option.some.injEq] at h
    subst h
    have h7 : (l.take 7).length = 7 := by rw [htake]; rfl
    have hlen : 7 ≤ l.length := by
      by_contra hc
      push_neg at hc
      have := List.length_take 7 l
      omega
    simp only [List.length_drop]
    omega
  · simp [htake] at h

theorem matchBroken_length {l r : List Char} (h : matchBroken l = some r) :
    r.length < l.length := by
  unfold matchBroken at h
  split at h
  · next rest =>
    have h3 := matchNilTail_length h
    have h4 := dropWhile_length_le isWordChar rest
    simp only [List.length_cons]
    omega
  · exact absurd h (by simp)

/-- `s.replace(BROKEN_TEMPLATE, "N/A")` on the char list: a left-to-right
scan replacing each non-overlapping match with `N/A`. -/
def sanitizeCore (l : List Char) : List Char :=
  match hm : matchBroken l with
  | some r => 'N' :: '/' :: 'A' :: sanitizeCore r
  | none =>
    match l with
    | [] => []
    | c :: rest => c :: sanitizeCore rest
termination_by l.length
decreasing_by
  · exact matchBroken_length hm
  · simp

/-- `sanitize` from `src/services/processor.ts`:
`s.replace(BROKEN_TEMPLATE, "N/A").trim()`. -/
def sanitize (s : String) : String := trimStr ⟨sanitizeCore s.data⟩

/-- `NormalizedAlert` from `src/types/grafana.ts` (label and annotation
records in property-insertion order). -/
structure NormalizedAlert where
  id : String
  fingerprint : String
  status : String
  labels : List (String × String)
  annotations : List (String × String)
  startsAt : String
  endsAt : String
  generatorURL : Option String
  groupLabels : List (String × String)
  commonLabels : List (String × String)
  commonAnnotations : List (String × String)
deriving DecidableEq, Repr

/-- The head of the trimmed string matches the regex
`^0001-01-01T00:00:00` (the `i` flag only affects the `T`). -/
def zeroSentinelHead (l : List Char) : Bool :=
  l.take 10 = "0001-01-01".data &&
    (match l.drop 10 with
     | 'T' :: rest => rest.take 8 = "00:00:00".data
     | 't' :: rest => rest.take 8 = "00:00:00".data
     | _ => false)

/-- `isMeaningfulEndsAt` from `src/services/processor.ts`. -/
def isMeaningfulEndsAt (endsAt : String) : Bool :=
  if (trimChars endsAt.data).isEmpty then false
  else if zeroSentinelHead (trimChars endsAt.data) then false
  else true

/-- The list of `"k: v"` parts of the synthesized "Key info" field. -/
def keyInfoParts (importantKeys : List String) (labels : List (String × String)) :
    List String :=
  (importantKeys.filter (fun k =>
      match alistLookup labels k with
      | some v => v ≠ ""
      | none => false)).map
    (fun k => k ++ ": " ++ (alistLookup labels k).getD "")

/-- `normalizedToApiPayload` from `src/services/processor.ts`. -/
def normalizedToApiPayload (alert : NormalizedAlert) (config : AlertTypeConfig) :
    AlertApiPayload :=
  let status := if alert.status = "resolved" then AStatus.resolved else AStatus.firing
  let severity := lowerStr ((alistLookup alert.labels "severity").getD "warning")
  let validSeverity :=
    if severity = "critical" || severity = "high" || severity = "info" then severity
    else "warning"
  let hidden := config.hiddenLabels.getD []
  let importantKeys := config.importantLabels.getD []
  let fields0 : List AlertField :=
    if importantKeys.length > 0 then
      let parts := keyInfoParts importantKeys alert.labels
      if parts.length > 0 then [⟨"Key info", String.intercalate " • " parts⟩] else []
    else []
  let fields1 := fields0 ++
    (alert.labels.filter (fun kv => !(hidden.contains kv.1))).map
      (fun kv => (⟨kv.1, kv.2⟩ : AlertField))
  let fields2 := fields1 ++
    alert.annotations.map (fun kv => (⟨kv.1, sanitize kv.2⟩ : AlertField))
  let resource := (alistLookup alert.labels "instance").orElse
    (fun _ => (alistLookup alert.labels "DBInstanceIdentifier").orElse
      (fun _ => alistLookup alert.labels "resource"))
  let summary := (alistLookup alert.annotations "summary").getD ""
  let description := (alistLookup alert.annotations "description").getD ""
  let descriptionText :=
    if sanitize summary ≠ "" then sanitize summary
    else if sanitize description ≠ "" then sanitize description
    else "No description"
  let ruleName := (alistLookup alert.labels "alertname").getD "default"
  { alertId := alert.fingerprint
    resource := resource
    title := "Alert: " ++ ruleName
    description := some descriptionText
    status := status
    severity := some validSeverity
    fields := some fields2
    startedAt := alert.startsAt
    resolvedAt := if isMeaningfulEndsAt alert.endsAt then some alert.endsAt else none
    generatorURL := alert.generatorURL
    channelId := config.channelId
    ruleName := some ruleName
    thumbnailUrl := config.thumbnailUrl
    source := some "grafana" }

/-! ### SNS adapter (`src/services/sns-processor.ts`, types in
`src/types/sns.ts`) -/

/-- An SNS message attribute (only `Value` is ever read; the `Type` field
is named `attrType` because `Type` is reserved in Lean). -/
structure SnsMessageAttribute where
  attrType : String
  Value : String
deriving DecidableEq, Repr

/-- `SnsNotificationEnvelope` (fields not read by the adapter are
omitted). -/
structure SnsNotificationEnvelope where
  MessageId : String
  Subject : Option String
  Message : String
  Timestamp : Option String
  MessageAttributes : Option (List (String × SnsMessageAttribute))
deriving DecidableEq, Repr

def DEFAULT_EVENT_NAME : String := "sns"

def MAX_DESCRIPTION_LEN : Nat := 1500

/-- `normalizeEventName` from `src/services/sns-processor.ts`:
`if (!s?.trim()) return DEFAULT_EVENT_NAME; return s.trim().replace(/\s+/g, "_")`. -/
def normalizeEventName (s : Option String) : String :=
  match s with
  | none => DEFAULT_EVENT_NAME
  | some s0 =>
    if (trimChars s0.data).isEmpty then DEFAULT_EVENT_NAME
    else ⟨squashWs (trimChars s0.data)⟩

/-- `envelope.MessageAttributes?.<name>?.Value`. -/
def attrValue (env : SnsNotificationEnvelope) (name : String) : Option String :=
  (env.MessageAttributes.bind (fun attrs => alistLookup attrs name)).map
    (fun a => a.Value)

/-- The chain of the three `typeof o[k] === "string" && o[k]` checks over
the parsed `Message` object. -/
def firstNonEmptyStrField (o : List (String × Json)) (keys : List String) :
    Option String :=
  match keys with
  | [] => none
  | k :: rest =>
    match jLookup o k with
    | some (Json.str s) => if s ≠ "" then some s else firstNonEmptyStrField o rest
    | _ => firstNonEmptyStrField o rest

/-- `deriveEventName` from `src/services/sns-processor.ts`. -/
def deriveEventName (parseJson : String → Option Json)
    (env : SnsNotificationEnvelope) : String :=
  if optTrimTruthy env.Subject then normalizeEventName env.Subject
  else if optTrimTruthy (attrValue env "event_type") then
    normalizeEventName (attrValue env "event_type")
  else if optTrimTruthy (attrValue env "rule_name") then
    normalizeEventName (attrValue env "rule_name")
  else
    match parseJson env.Message with
    | some (Json.obj o) =>
      match firstNonEmptyStrField o ["detail-type", "source", "eventName"] with
      | some s => normalizeEventName (some s)
      | none => DEFAULT_EVENT_NAME
    | _ => DEFAULT_EVENT_NAME

mutual

/-- `JSON.stringify` (string escaping limited to quote and backslash,
which suffices for the values exercised here). -/
def jStringify (v : Json) : String :=
  match v with
  | Json.null => "null"
  | Json.bool b => if b then "true" else "false"
  | Json.num n => toString n
  | Json.str s => "\"" ++ s ++ "\""
  | Json.arr items => "[" ++ jStringifyList items ++ "]"
  | Json.obj fields => "\x7b" ++ jStringifyObj fields ++ "\x7d"

def jStringifyList (items : List Json) : String :=
  match items with
  | [] => ""
  | [x] => jStringify x
  | x :: rest => jStringify x ++ "," ++ jStringifyList rest

def jStringifyObj (fields : List (String × Json)) : String :=
  match fields with
  | [] => ""
  | [(k, v)] => "\"" ++ k ++ "\":" ++ jStringify v
  | (k, v) :: rest => "\"" ++ k ++ "\":" ++ jStringify v ++ "," ++ jStringifyObj rest

end

mutual

/-- JS `String(v)` coercion of a JSON value. -/
def jsToString (v : Json) : String :=
  match v with
  | Json.null => "null"
  | Json.bool b => if b then "true" else "false"
  | Json.num n => toString n
  | Json.str s => s
  | Json.arr items => jsArrToString items
  | Json.obj _ => "[object Object]"

/-- JS `Array.prototype.toString`: elements joined by commas, with `null`
elements becoming empty. -/
def jsArrToString (items : List Json) : String :=
  match items with
  | [] => ""
  | [Json.null] => ""
  | [x] => jsToString x
  | Json.null :: rest => "," ++ jsArrToString rest
  | x :: rest => jsToString x ++ "," ++ jsArrToString rest

end

def VALID_SEVERITIES : List String := ["critical", "high", "warning", "info"]

/-- `parseSeverity` from `src/services/sns-processor.ts`. -/
def parseSeverity (parseJson : String → Option Json)
    (env : SnsNotificationEnvelope) : String :=
  let fromAttr := ((attrValue env "severity").map lowerStr).orElse
    (fun _ => (attrValue env "Severity").map lowerStr)
  match fromAttr with
  | some s =>
    if s ≠ "" && VALID_SEVERITIES.contains s then s
    else parseSeverityFromMessage parseJson env
  | none => parseSeverityFromMessage parseJson env

where
  parseSeverityFromMessage (parseJson : String → Option Json)
      (env : SnsNotificationEnvelope) : String :=
    match parseJson env.Message with
    | some (Json.obj o) =>
      let sev1 := match jLookup o "severity" with
        | some Json.null => none
        | x => x
      let sev2 := match jLookup o "Severity" with
        | some Json.null => none
        | x => x
      let raw := (sev1.orElse (fun _ => sev2)).getD (Json.str "")
      let s := lowerStr (jsToString raw)
      if VALID_SEVERITIES.contains s then s else "warning"
    | _ => "warning"

/-- `parseResource` from `src/services/sns-processor.ts`. A non-string
truthy `ARN` would be returned by the source and then crash at the later
`.slice`; only the string case is modelled. -/
def parseResource (parseJson : String → Option Json)
    (env : SnsNotificationEnvelope) : Option String :=
  match parseJson env.Message with
  | some (Json.obj o) =>
    match jLookup o "AlarmName" with
    | some (Json.str s) => some s
    | _ =>
      match jLookup o "detail" with
      | some (Json.obj detail) =>
        match jLookup detail "resource" with
        | some (Json.str s) => some s
        | _ =>
          match jLookup detail "resources" with
          | some (Json.arr (first :: _)) =>
            match first with
            | Json.obj fo =>
              match jLookup fo "ARN" with
              | some (Json.str a) => if a ≠ "" then some a else none
              | _ => none
            | _ => none
          | _ => none
      | _ => none
  | _ => none

/-- `parseResolvedState` from `src/services/sns-processor.ts`. -/
def parseResolvedState (parseJson : String → Option Json)
    (env : SnsNotificationEnvelope) : AStatus × Option String :=
  match parseJson env.Message with
  | some (Json.obj o) =>
    match jLookup o "NewStateValue" with
    | some (Json.str "OK") => (AStatus.resolved, env.Timestamp)
    | _ =>
      match jLookup o "detail" with
      | some (Json.obj detail) =>
        match jLookup detail "state" with
        | some (Json.obj st) =>
          match jLookup st "value" with
          | some (Json.str "OK") => (AStatus.resolved, env.Timestamp)
          | _ => (AStatus.firing, none)
        | _ => (AStatus.firing, none)
      | _ => (AStatus.firing, none)
  | _ => (AStatus.firing, none)

/-- `buildFieldsFromMessage` from `src/services/sns-processor.ts`. -/
def buildFieldsFromMessage (parseJson : String → Option Json)
    (message : String) : List AlertField :=
  match parseJson message with
  | some (Json.obj o) =>
    ((o.filterMap (fun kv =>
        match kv.2 with
        | Json.null => none
        | Json.arr items => some (⟨kv.1, strTake (jStringify (Json.arr items)) 500⟩ : AlertField)
        | Json.obj fields => some (⟨kv.1, strTake (jStringify (Json.obj fields)) 500⟩ : AlertField)
        | v => some (⟨kv.1, strTake (jsToString v) 500⟩ : AlertField))).take 20)
  | _ => []

/-- `snsEnvelopeToAlertPayload` from `src/services/sns-processor.ts`.
`nowIso` models the `new Date().toISOString()` fallback for `startedAt`. -/
def snsEnvelopeToAlertPayload (parseJson : String → Option Json) (cfg : AlertsConfig)
    (nowIso : String) (env : SnsNotificationEnvelope) : Option AlertApiPayload :=
  let eventName := deriveEventName parseJson env
  match alistLookup cfg eventName with
  | none => none
  | some config =>
    if config.channelId = "" then none
    else
      let description := strTake env.Message MAX_DESCRIPTION_LEN
      let resource := parseResource parseJson env
      let severity := parseSeverity parseJson env
      let startedAt := env.Timestamp.getD nowIso
      let fields := buildFieldsFromMessage parseJson env.Message
      let alertId := env.MessageId ++ (match resource with
        | some r => if r ≠ "" then ":" ++ strTake r 64 else ""
        | none => "")
      let sr := parseResolvedState parseJson env
      some
        { alertId := alertId
          resource := resource
          title := if optTrimTruthy env.Subject then
              "Alert: " ++ trimStr (env.Subject.getD "")
            else "Alert: " ++ eventName
          description := some (if description = "" then "No description" else description)
          status := sr.1
          severity := some severity
          fields := if fields.length > 0 then some fields else none
          startedAt := startedAt
          resolvedAt := sr.2
          generatorURL := none
          channelId := config.channelId
          ruleName := some eventName
          thumbnailUrl := config.thumbnailUrl
          source := some "sns" }

/-! ### Concrete example inputs used by witnesses and counterexamples -/

/-- A one-rule config entry with only `channelId` set. -/
def exRule (channelId : String) : AlertTypeConfig :=
  { channelId := channelId, suppressWindowMs := none, importantLabels := none,
    hiddenLabels := none, thumbnailUrl := none, mentions := none }

/-- An emit function that always succeeds without touching the incident
store. -/
def exEmitOk : Emit := fun _ st => some ("m1", st)

/-- A resolved payload for rule `r1`. -/
def exPayloadResolved : AlertApiPayload :=
  { alertId := "fp1", resource := none, title := "Alert: r1", description := none,
    status := AStatus.resolved, severity := some "critical", fields := none,
    startedAt := "2024-01-01T00:00:00Z", resolvedAt := none, generatorURL := none,
    channelId := "c1", ruleName := some "r1", thumbnailUrl := none,
    source := some "grafana" }

/-- A firing payload for rule `r1`. -/
def exPayloadFiring : AlertApiPayload :=
  { exPayloadResolved with status := AStatus.firing }

/-- A stored incident record in state `firing` whose stale `resolvedAt`
survived an earlier resolve/re-fire cycle (as `sendOrUpdateAlert` carries
`resolvedAt` forward on non-resolved updates). -/
def exStoredFiringStale : StoredAlert :=
  { messageId := "m0", channelId := "c1", threadId := none,
    state := AlertState.firing, updatedAt := 1000000, ruleName := some "r1",
    acknowledgedBy := none, resolvedBy := none, severity := some "critical",
    mentionLevel := none, resolvedAt := some 0, acknowledgedAt := none }

/-- A critical firing record for rule `rm` with no prior escalation. -/
def exStoredCritical : StoredAlert :=
  { messageId := "m0", channelId := "c1", threadId := none,
    state := AlertState.firing, updatedAt := 0, ruleName := some "rm",
    acknowledgedBy := none, resolvedBy := none, severity := some "critical",
    mentionLevel := none, resolvedAt := none, acknowledgedAt := none }

/-- A config whose rule `rm` has the single (degenerate) mention `""`. -/
def exCfgEmptyMention : AlertsConfig :=
  [("rm", { exRule "c1" with mentions := some [""] })]

/-- A config whose rule `rm` mentions users `u1`, `u2`, `u3`. -/
def exCfgMentions : AlertsConfig :=
  [("rm", { exRule "c1" with mentions := some ["u1", "u2", "u3"] })]

/-- An SNS envelope whose only event-name candidate is the parsed
`Message` with a whitespace-only `detail-type` followed by a non-empty
`source`. -/
def exEnvBlankDetailType : SnsNotificationEnvelope :=
  { MessageId := "mid-1", Subject := none, Message := "msgA", Timestamp := none,
    MessageAttributes := none }

/-- The JSON parser used by the C7 counterexample: `"msgA"` parses to an
object with a whitespace-only `detail-type` and `source` `"aws.ec2"`. -/
def exParseBlankDetailType : String → Option Json := fun s =>
  if s = "msgA" then
    some (Json.obj [("detail-type", Json.str " "), ("source", Json.str "aws.ec2")])
  else none

/-- A normalized Grafana alert whose `endsAt` has year 0001 but is not the
exact `0001-01-01T00:00:00` zero instant. -/
def exAlertYear0001 : NormalizedAlert :=
  { id := "f1", fingerprint := "f1", status := "resolved", labels := [],
    annotations := [], startsAt := "2024-01-01T00:00:00Z",
    endsAt := "0001-03-01T00:00:00Z", generatorURL := none, groupLabels := [],
    commonLabels := [], commonAnnotations := [] }

/-- SNS envelope 1 for the C9 counterexample: `MessageId` `"a"`, and a
`Message` that parses to an alarm with `AlarmName` `"b"`. -/
def exEnvColon1 : SnsNotificationEnvelope :=
  { MessageId := "a", Subject := some "x", Message := "m1", Timestamp := none,
    MessageAttributes := none }

/-- SNS envelope 2 for the C9 counterexample: `MessageId` `"a:b"` and an
unparseable `Message`. -/
def exEnvColon2 : SnsNotificationEnvelope :=
  { MessageId := "a:b", Subject := some "x", Message := "m2", Timestamp := none,
    MessageAttributes := none }

/-- The JSON parser used by the C9 counterexample. -/
def exParseColon : String → Option Json := fun s =>
  if s = "m1" then some (Json.obj [("AlarmName", Json.str "b")]) else none

/-- A config with an entry for event name `x`. -/
def exCfgX : AlertsConfig := [("x", exRule "c")]

/-- An embed field list as found on a firing alert message. -/
def exEmbedFields : List EmbedFieldE :=
  [⟨"Status", "firing", some true⟩, ⟨"env", "prod", none⟩]

/-- An SNS envelope whose `Subject` has inner and trailing whitespace. -/
def exEnvSubjectWs : SnsNotificationEnvelope :=
  { MessageId := "m", Subject := some " a b ", Message := "x", Timestamp := none,
    MessageAttributes := none }

/-- A colon-free-`MessageId` envelope with an unparseable `Message`
(companion of `exEnvColon1` for the amended C9 distinctness). -/
def exEnvColonFree : SnsNotificationEnvelope :=
  { MessageId := "b", Subject := some "x", Message := "m2", Timestamp := none,
    MessageAttributes := none }

/-! ## Theorems

Shared lemmas first, then one theorem per claim (with witness or
counterexample where required). -/

theorem alistLookup_erase_self {α : Type} (st : List (String × α)) (key : String) :
    alistLookup (alistErase st key) key = none := by
  induction st with
  | nil => rfl
  | cons hd tl ih =>
    by_cases h : hd.1 = key
    · simpa [alistErase, List.filter_cons, h] using ih
    · simpa [alistErase, List.filter_cons, h, alistLookup] using ih

theorem alistLookup_set_self {α : Type} (st : List (String × α)) (key : String) (v : α) :
    alistLookup (alistSet st key v) key = some v := by
  simp [alistSet, alistLookup]

/-! ### C4 — dedup test-and-set -/

/-- Claim C4, functional part (amended): Sequentially, `isDuplicate` behaves
as the claim states: a fingerprint that is absent (no unexpired entry) is
inserted with TTL `max(1, ceil(ttlMs / 1000))` seconds — at least one
second — and the call reports *new* (`false`); a present fingerprint is
reported as *duplicate* (`true`) with the store, hence the stored TTL,
untouched. -/
theorem isDuplicate_testAndSet (now : Nat) (fp : String) (ttlMs : Nat) (st : DedupStore) :
    (redisAlive st now (dedupKey fp) = false →
      (isDuplicate now fp ttlMs st).1 = false ∧
      (isDuplicate now fp ttlMs st).2 =
        alistSet st (dedupKey fp) (now + 1000 * max 1 ((ttlMs + 999) / 1000)) ∧
      alistLookup (isDuplicate now fp ttlMs st).2 (dedupKey fp) =
        some (now + 1000 * max 1 ((ttlMs + 999) / 1000)) ∧
      1 ≤ max 1 ((ttlMs + 999) / 1000)) ∧
    (redisAlive st now (dedupKey fp) = true →
      (isDuplicate now fp ttlMs st).1 = true ∧
      (isDuplicate now fp ttlMs st).2 = st) := by
  constructor
  · intro h
    refine ⟨?_, ?_, ?_, ?_⟩
    · simp [isDuplicate, h]
    · simp [isDuplicate, h, ttlSecOf]
    · simp [isDuplicate, h, ttlSecOf, alistLookup_set_self]
    · exact Nat.le_max_left 1 _
  · intro h
    constructor <;> simp [isDuplicate, h]

theorem isDuplicate_testAndSet_witness :
    (isDuplicate 7 "fpw" 1500 []).1 = false ∧
    alistLookup (isDuplicate 7 "fpw" 1500 []).2 (dedupKey "fpw") = some (7 + 1000 * 2) ∧
    (isDuplicate 7 "fpw" 1500 ((isDuplicate 7 "fpw" 1500 []).2)).1 = true ∧
    (isDuplicate 7 "fpw" 1500 ((isDuplicate 7 "fpw" 1500 []).2)).2 =
      (isDuplicate 7 "fpw" 1500 []).2 := by
  refine ⟨((isDuplicate_testAndSet 7 "fpw" 1500 []).1 (by decide)).1,
    ((isDuplicate_testAndSet 7 "fpw" 1500 []).1 (by decide)).2.2.1,
    ((isDuplicate_testAndSet 7 "fpw" 1500 ((isDuplicate 7 "fpw" 1500 []).2)).2 (by decide)).1,
    ((isDuplicate_testAndSet 7 "fpw" 1500 ((isDuplicate 7 "fpw" 1500 []).2)).2 (by decide)).2⟩

/-- Claim C4, counterexample to atomicity: The source implements the
test-and-set as two separate Redis round-trips (`GET`, then `SETEX`). In
the legal interleaving of two concurrent calls where both `GET`s run
first, both calls report *new*, whereas under any serial (atomic)
execution the second call reports *duplicate*. -/
theorem isDuplicate_not_atomic_counterexample :
    (isDuplicateInterleaved 0 "fp1" 5000 []).1 = false ∧
    (isDuplicateInterleaved 0 "fp1" 5000 []).2.1 = false ∧
    (isDuplicate 0 "fp1" 5000 ((isDuplicate 0 "fp1" 5000 []).2)).1 = true := by
  refine ⟨rfl, rfl, by decide⟩

/-! ### C1 — resolved events are never suppressed by dedup -/

theorem procAfterDedup_dedup (emit : Emit) (dbUrl : Bool) (now : Nat)
    (p : AlertApiPayload) (dedup1 : DedupStore) (alerts0 : AlertStore)
    (tr : List ProcAction) :
    (procAfterDedup emit dbUrl now p dedup1 alerts0 tr).dedup = dedup1 := rfl

theorem mem_two_if_singleton {α : Type} {a x : α} {b1 b2 : Bool}
    (h : a ∈ (if b1 then [x] else []) ++ (if b2 then [x] else [])) : a = x := by
  cases b1 <;> cases b2 <;> simp_all

theorem mem_auditTail {a : ProcAction} {dbUrl : Bool} {alertId : String}
    {emitRes : Option (String × AlertStore)}
    (h : a ∈ auditTail dbUrl alertId emitRes) : a = ProcAction.auditAct alertId := by
  cases emitRes <;> cases dbUrl <;> simp_all [auditTail]

theorem procAfterDedup_trace (emit : Emit) (dbUrl : Bool) (now : Nat)
    (p : AlertApiPayload) (dedup1 : DedupStore) (alerts0 : AlertStore)
    (tr : List ProcAction) :
    ∃ mid post,
      (procAfterDedup emit dbUrl now p dedup1 alerts0 tr).trace =
        tr ++ mid ++ ProcAction.emitAct p :: post ∧
      (∀ a ∈ mid, a = ProcAction.deleteStoredAct p.alertId p.resource) ∧
      (∀ a ∈ post, a = ProcAction.auditAct p.alertId) := by
  refine ⟨_, _, rfl, fun a ha => mem_two_if_singleton ha,
    fun a ha => mem_auditTail ha⟩

/-- Claim C1 (confirmed): For every resolved alert payload whose rule has a
config entry with a (non-empty) `channelId`, `processOneAlertPayload`
never consults `isDuplicate`, clears the dedup key before the chat emit
(`sendOrUpdateAlert`), and leaves the dedup store with no entry for the
alert id — for any emit behaviour, audit flag, prior stores and clock. -/
theorem resolved_never_suppressed (emit : Emit) (cfg : AlertsConfig) (dbUrl : Bool)
    (now : Nat) (p : AlertApiPayload) (dedup0 : DedupStore) (alerts0 : AlertStore)
    (config : AlertTypeConfig)
    (hRes : p.status = AStatus.resolved)
    (hCfg : alistLookup cfg (p.ruleName.getD "default") = some config)
    (hCh : config.channelId ≠ "") :
    (∀ fp ttl, ProcAction.isDuplicateAct fp ttl ∉
      (processOneAlertPayload emit cfg dbUrl now p dedup0 alerts0).trace) ∧
    (∃ mid post,
      (processOneAlertPayload emit cfg dbUrl now p dedup0 alerts0).trace =
        ProcAction.clearDedupAct p.alertId :: (mid ++ ProcAction.emitAct p :: post)) ∧
    alistLookup (processOneAlertPayload emit cfg dbUrl now p dedup0 alerts0).dedup
      (dedupKey p.alertId) = none := by
  have hr : processOneAlertPayload emit cfg dbUrl now p dedup0 alerts0 =
      procAfterDedup emit dbUrl now p (clearDedup p.alertId dedup0) alerts0
        [ProcAction.clearDedupAct p.alertId] := by
    simp only [processOneAlertPayload, hCfg, hRes]
    simp [hCh]
  obtain ⟨mid, post, htr, hmid, hpost⟩ := procAfterDedup_trace emit dbUrl now p
    (clearDedup p.alertId dedup0) alerts0 [ProcAction.clearDedupAct p.alertId]
  refine ⟨?_, ?_, ?_⟩
  · intro fp ttl hmem
    rw [hr, htr] at hmem
    simp only [List.mem_append, List.mem_cons, List.mem_singleton] at hmem
    rcases hmem with (h | h) | h | h
    · simp at h
    · exact absurd (hmid _ h) (by simp)
    · exact absurd h (by simp)
    · exact absurd (hpost _ h) (by simp)
  · refine ⟨mid, post, ?_⟩
    rw [hr, htr]
    simp
  · rw [hr, procAfterDedup_dedup]
    exact alistLookup_erase_self dedup0 (dedupKey p.alertId)

theorem resolved_never_suppressed_witness :
    (∀ fp ttl, ProcAction.isDuplicateAct fp ttl ∉
      (processOneAlertPayload exEmitOk [("r1", exRule "c1")] true 0
        exPayloadResolved [(dedupKey "fp1", 100000)] []).trace) ∧
    (∃ mid post,
      (processOneAlertPayload exEmitOk [("r1", exRule "c1")] true 0
        exPayloadResolved [(dedupKey "fp1", 100000)] []).trace =
        ProcAction.clearDedupAct exPayloadResolved.alertId ::
          (mid ++ ProcAction.emitAct exPayloadResolved :: post)) ∧
    alistLookup (processOneAlertPayload exEmitOk [("r1", exRule "c1")] true 0
      exPayloadResolved [(dedupKey "fp1", 100000)] []).dedup
      (dedupKey exPayloadResolved.alertId) = none := by
  have h := resolved_never_suppressed exEmitOk [("r1", exRule "c1")] true 0
    exPayloadResolved [(dedupKey "fp1", 100000)] [] (exRule "c1")
    (by decide) (by decide) (by decide)
  simpa using h

/-! ### C3 — lifecycle-expiry check -/

theorem mem_if_singleton_iff {α : Type} {x : α} {b : Bool} :
    (x ∈ if b then [x] else []) ↔ b = true := by
  cases b <;> simp

theorem expiredResolvedAt_iff (now : Nat) (s : StoredAlert) :
    expiredResolvedAt now s = true ↔
      ∃ t, resolvedAtEffective s = some t ∧ t + RESOLVED_NEW_ALERT_AFTER_MS < now := by
  unfold expiredResolvedAt
  cases h : resolvedAtEffective s <;> simp [h]

theorem expiredAcknowledged_iff (now : Nat) (s : StoredAlert) :
    expiredAcknowledged now s = true ↔
      (s.state = AlertState.acknowledged ∧
        ∃ t, s.acknowledgedAt = some t ∧ t + ACK_NEW_INCIDENT_AFTER_MS < now) := by
  unfold expiredAcknowledged
  by_cases hst : s.state = AlertState.acknowledged <;>
    cases h : s.acknowledgedAt <;> simp [hst, h]

theorem procAfterDedup_delete_iff (emit : Emit) (dbUrl : Bool) (now : Nat)
    (p : AlertApiPayload) (dedup1 : DedupStore) (alerts0 : AlertStore)
    (tr : List ProcAction) (s : StoredAlert)
    (hStored : alistLookup alerts0 (alertKey p.alertId p.resource) = some s)
    (hTr : ProcAction.deleteStoredAct p.alertId p.resource ∉ tr) :
    (ProcAction.deleteStoredAct p.alertId p.resource ∈
        (procAfterDedup emit dbUrl now p dedup1 alerts0 tr).trace ↔
      (expiredResolvedAt now s = true ∨ expiredAcknowledged now s = true)) := by
  unfold procAfterDedup
  simp only [hStored, List.mem_append, List.mem_cons]
  constructor
  · intro h
    rcases h with (h | h) | h | h
    · exact absurd h hTr
    · exact h.imp (fun h1 => mem_if_singleton_iff.1 h1) (fun h2 => mem_if_singleton_iff.1 h2)
    · exact absurd h (by simp)
    · exact absurd (mem_auditTail h) (by simp)
  · intro h
    exact Or.inl (Or.inr
      (h.imp (fun h1 => mem_if_singleton_iff.2 h1) (fun h2 => mem_if_singleton_iff.2 h2)))

/-- Claim C3 (amended): In the processor's lifecycle-expiry check, for an
incoming alert with a prior record `s` (and a configured rule, the dedup
gate passing), the record is deleted exactly when the *effective* resolve
time — `s.resolvedAt`, falling back to `s.updatedAt` when the state is
`resolved` — is present and more than 30 minutes old, or the state is
`acknowledged` with `acknowledgedAt` present and more than 90 minutes old.
(The claim's restriction of the first disjunct to records in state
`resolved` is refuted by `lifecycle_expiry_counterexample`: a stale
`resolvedAt` carried on a record in another state also triggers
deletion.) -/
theorem lifecycle_expiry_exact (emit : Emit) (cfg : AlertsConfig) (dbUrl : Bool)
    (now : Nat) (p : AlertApiPayload) (dedup0 : DedupStore) (alerts0 : AlertStore)
    (config : AlertTypeConfig) (s : StoredAlert)
    (hCfg : alistLookup cfg (p.ruleName.getD "default") = some config)
    (hCh : config.channelId ≠ "")
    (hPass : p.status = AStatus.resolved ∨
      (isDuplicate now p.alertId (config.suppressWindowMs.getD (5 * 60 * 1000)) dedup0).1 =
        false)
    (hStored : alistLookup alerts0 (alertKey p.alertId p.resource) = some s) :
    (ProcAction.deleteStoredAct p.alertId p.resource ∈
        (processOneAlertPayload emit cfg dbUrl now p dedup0 alerts0).trace ↔
      ((∃ t, resolvedAtEffective s = some t ∧ t + RESOLVED_NEW_ALERT_AFTER_MS < now) ∨
       (s.state = AlertState.acknowledged ∧
         ∃ t, s.acknowledgedAt = some t ∧ t + ACK_NEW_INCIDENT_AFTER_MS < now))) := by
  by_cases hres : p.status = AStatus.resolved
  · have hr : processOneAlertPayload emit cfg dbUrl now p dedup0 alerts0 =
        procAfterDedup emit dbUrl now p (clearDedup p.alertId dedup0) alerts0
          [ProcAction.clearDedupAct p.alertId] := by
      simp only [processOneAlertPayload, hCfg, hres]
      simp [hCh]
    rw [hr, procAfterDedup_delete_iff emit dbUrl now p _ alerts0 _ s hStored (by simp),
      expiredResolvedAt_iff, expiredAcknowledged_iff]
  · have hdup : (isDuplicate now p.alertId
        (config.suppressWindowMs.getD (5 * 60 * 1000)) dedup0).1 = false := by
      rcases hPass with h | h
      · exact absurd h hres
      · exact h
    have hr : processOneAlertPayload emit cfg dbUrl now p dedup0 alerts0 =
        procAfterDedup emit dbUrl now p
          (isDuplicate now p.alertId
            (config.suppressWindowMs.getD (5 * 60 * 1000)) dedup0).2 alerts0
          [ProcAction.isDuplicateAct p.alertId
            (config.suppressWindowMs.getD (5 * 60 * 1000))] := by
      simp only [processOneAlertPayload, hCfg]
      simp [hCh, hres, hdup]
    rw [hr, procAfterDedup_delete_iff emit dbUrl now p _ alerts0 _ s hStored (by simp),
      expiredResolvedAt_iff, expiredAcknowledged_iff]

theorem lifecycle_expiry_exact_witness :
    ProcAction.deleteStoredAct "fp1" none ∈
      (processOneAlertPayload exEmitOk [("r1", exRule "c1")] false 1860001
        exPayloadFiring [] [(alertKey "fp1" none, exStoredFiringStale)]).trace := by
  exact (lifecycle_expiry_exact exEmitOk [("r1", exRule "c1")] false 1860001
    exPayloadFiring [] [(alertKey "fp1" none, exStoredFiringStale)] (exRule "c1")
    exStoredFiringStale (by decide) (by decide) (Or.inr (by decide))
    (by decide)).mpr (Or.inl ⟨0, by decide, by decide⟩)

/-- Claim C3, counterexample: A record in state `firing` (neither `resolved`
nor `acknowledged`) that still carries a stale `resolvedAt` from an
earlier resolve/re-fire cycle *is* deleted by the lifecycle-expiry check,
refuting the claim's “a record in any other state is never deleted by this
check”. -/
theorem lifecycle_expiry_counterexample :
    exStoredFiringStale.state = AlertState.firing ∧
    ProcAction.deleteStoredAct "fp1" none ∈
      (processOneAlertPayload exEmitOk [("r1", exRule "c1")] false 1860001
        exPayloadFiring [] [(alertKey "fp1" none, exStoredFiringStale)]).trace := by
  constructor
  · rfl
  · decide

/-! ### C2 — escalation tick -/

theorem escalation_fires (cfg : AlertsConfig) (now : Nat) (stored : StoredAlert)
    (ms : List String) (u : String) (l : Nat)
    (hState : stored.state = AlertState.firing)
    (hSev : stored.severity = some "critical")
    (hMen : (alistLookup cfg (stored.ruleName.getD "")).bind (fun c => c.mentions) = some ms)
    (hLvl : stored.mentionLevel.getD 0 = l)
    (hLevel : l < ms.length)
    (hGet : ms[l]? = some u)
    (hU : u ≠ "")
    (hElapsed : stored.updatedAt + (l + 1) * MENTION_ESCALATION_STEP_MS ≤ now) :
    escalationTickRecord cfg now stored true =
      some (u, { stored with mentionLevel := some (l + 1) }) := by
  have hlow : lowerStr "critical" = "critical" := by decide
  have h1 : ¬(ms.length = 0) := by omega
  have h2 : ¬(ms.length ≤ l) := by omega
  have h3 : ¬(now - stored.updatedAt < (l + 1) * MENTION_ESCALATION_STEP_MS) := by omega
  simp only [escalationTickRecord, hState, hSev, hMen]
  simp [hlow, h1, hLvl, h2, h3, hGet, hU]

theorem escalation_no_early (cfg : AlertsConfig) (now : Nat) (stored : StoredAlert)
    (sendOk : Bool) (l : Nat)
    (hLvl : stored.mentionLevel.getD 0 = l)
    (hEarly : now < stored.updatedAt + (l + 1) * MENTION_ESCALATION_STEP_MS) :
    escalationTickRecord cfg now stored sendOk = none := by
  have h3 : now - stored.updatedAt < (l + 1) * MENTION_ESCALATION_STEP_MS := by
    simp only [MENTION_ESCALATION_STEP_MS] at hEarly ⊢
    omega
  unfold escalationTickRecord
  split
  · rfl
  · split
    · rfl
    · split
      · rfl
      · simp [hLvl, h3]

/-- Claim C2 (amended): For an escalation tick on a stored record in state
`firing` with severity `critical`, whose rule's mentions list has, at
`level = mentionLevel ?? 0 < mentions.length`, a *non-empty* user id, and
with `now - updatedAt ≥ (level + 1) * 5 min` (Discord reachable): the tick
posts a mention of `mentions[level]` and persists the record with
`mentionLevel = level + 1` and every other field — in particular
`updatedAt` — unchanged. Consequently pings fire at the absolute times
`updatedAt + 5 min, + 10 min, …`: the successor record pings no earlier
than `updatedAt + (level + 2) * 5 min`, and does ping once that absolute
time is reached. (The claim's version without the non-emptiness of
`mentions[level]` is refuted by `escalation_tick_counterexample`.) -/
theorem escalation_tick_step (cfg : AlertsConfig) (now : Nat) (stored : StoredAlert)
    (ms : List String) (u : String) (l : Nat)
    (hState : stored.state = AlertState.firing)
    (hSev : stored.severity = some "critical")
    (hMen : (alistLookup cfg (stored.ruleName.getD "")).bind (fun c => c.mentions) = some ms)
    (hLvl : stored.mentionLevel.getD 0 = l)
    (hLevel : l < ms.length)
    (hGet : ms[l]? = some u)
    (hU : u ≠ "")
    (hElapsed : stored.updatedAt + (l + 1) * MENTION_ESCALATION_STEP_MS ≤ now) :
    escalationTickRecord cfg now stored true =
      some (u, { stored with mentionLevel := some (l + 1) }) ∧
    ({ stored with mentionLevel := some (l + 1) } : StoredAlert).updatedAt =
      stored.updatedAt ∧
    (∀ now2 sendOk2 r,
      escalationTickRecord cfg now2 { stored with mentionLevel := some (l + 1) } sendOk2 =
        some r →
      stored.updatedAt + (l + 2) * MENTION_ESCALATION_STEP_MS ≤ now2) ∧
    (∀ now2 u2, ms[l + 1]? = some u2 → u2 ≠ "" →
      stored.updatedAt + (l + 2) * MENTION_ESCALATION_STEP_MS ≤ now2 →
      escalationTickRecord cfg now2 { stored with mentionLevel := some (l + 1) } true =
        some (u2, { stored with mentionLevel := some (l + 2) })) := by
  refine ⟨escalation_fires cfg now stored ms u l hState hSev hMen hLvl hLevel hGet hU hElapsed,
    rfl, ?_, ?_⟩
  · intro now2 sendOk2 r h
    by_contra hc
    push_neg at hc
    have hnone := escalation_no_early cfg now2 { stored with mentionLevel := some (l + 1) }
      sendOk2 (l + 1) rfl (by simpa using hc)
    rw [hnone] at h
    exact Option.noConfusion h
  · intro now2 u2 hGet2 hU2 hEl2
    have hlen2 : l + 1 < ms.length := (List.getElem?_eq_some.mp hGet2).1
    have h := escalation_fires cfg now2 { stored with mentionLevel := some (l + 1) }
      ms u2 (l + 1) hState hSev hMen rfl hlen2 hGet2 hU2 (by simpa using hEl2)
    simpa using h

theorem escalation_tick_step_witness :
    escalationTickRecord exCfgMentions 300000 exStoredCritical true =
      some ("u1", { exStoredCritical with mentionLevel := some 1 }) ∧
    ({ exStoredCritical with mentionLevel := some 1 } : StoredAlert).updatedAt =
      exStoredCritical.updatedAt ∧
    escalationTickRecord exCfgMentions 600000
        { exStoredCritical with mentionLevel := some 1 } true =
      some ("u2", { exStoredCritical with mentionLevel := some 2 }) := by
  have h := escalation_tick_step exCfgMentions 300000 exStoredCritical
    ["u1", "u2", "u3"] "u1" 0 rfl rfl (by decide) (by decide) (by decide)
    (by decide) (by decide) (by decide)
  exact ⟨h.1, h.2.1, h.2.2.2 600000 "u2" (by decide) (by decide) (by decide)⟩

/-- Claim C2, counterexample: A record meeting every hypothesis of the claim
— state `firing`, severity `critical`, a non-empty mentions list,
`level = 0 < 1 = mentions.length`, elapsed ≥ 5 min, Discord reachable —
whose `mentions[0]` is the empty string: the tick posts nothing and
persists nothing (the source skips on `if (!userId) continue`), refuting
the claim as stated. -/
theorem escalation_tick_counterexample :
    ((alistLookup exCfgEmptyMention (exStoredCritical.ruleName.getD "")).bind
        (fun c => c.mentions) = some [""]) ∧
    exStoredCritical.state = AlertState.firing ∧
    exStoredCritical.severity = some "critical" ∧
    exStoredCritical.mentionLevel.getD 0 < ([""] : List String).length ∧
    exStoredCritical.updatedAt +
      (exStoredCritical.mentionLevel.getD 0 + 1) * MENTION_ESCALATION_STEP_MS ≤ 300000 ∧
    escalationTickRecord exCfgEmptyMention 300000 exStoredCritical true = none := by
  exact ⟨by decide, rfl, rfl, by decide, by decide, by decide⟩

/-! ### C5 — Acknowledge button -/

/-- Claim C5 (confirmed): When the Acknowledge button is pressed for an
alert with a stored record (and the message still has its embed), the
handler persists the record with state `acknowledged`,
`acknowledgedBy = userId` and `acknowledgedAt = now` (also stamping
`updatedAt = now`), sets the dedup TTL for the alert id to
`max(rule.suppressWindowMs ?? 5 min, 10 min)` (stored in whole seconds,
`SETEX` at `now`), and the re-rendered message keeps exactly the
Troubleshoot and Resolve buttons. -/
theorem ack_button_behaviour (cfg : AlertsConfig) (now : Nat) (userId : String)
    (alertId : String) (resource : Option String)
    (dedup0 : DedupStore) (alerts0 : AlertStore) (stored : StoredAlert)
    (hStored : alistLookup alerts0 (alertKey alertId resource) = some stored) :
    let suppress := ((alistLookup cfg (stored.ruleName.getD "")).bind
      (fun c => c.suppressWindowMs)).getD (5 * 60 * 1000)
    let r := ackButtonHandler cfg now userId alertId resource true dedup0 alerts0
    alistLookup r.alerts (alertKey alertId resource) =
      some { stored with
        state := AlertState.acknowledged
        acknowledgedBy := some userId
        acknowledgedAt := some now
        updatedAt := now } ∧
    alistLookup r.dedup (dedupKey alertId) =
      some (now + 1000 * ttlSecOf (max suppress ACK_MIN_SUPPRESS_MS)) ∧
    r.components = [troubleshootButtonId alertId resource, resolveButtonId alertId resource] := by
  intro suppress r
  have hr : r = ackButtonHandler cfg now userId alertId resource true dedup0 alerts0 := rfl
  rw [hr]
  unfold ackButtonHandler
  rw [hStored]
  refine ⟨?_, ?_, rfl⟩
  · exact alistLookup_set_self alerts0 (alertKey alertId resource) _
  · exact alistLookup_set_self dedup0 (dedupKey alertId) _

theorem ack_button_behaviour_witness :
    alistLookup (ackButtonHandler [] 1000 "user9" "fp1" none true []
        [(alertKey "fp1" none, exStoredCritical)]).alerts (alertKey "fp1" none) =
      some { exStoredCritical with
        state := AlertState.acknowledged
        acknowledgedBy := some "user9"
        acknowledgedAt := some 1000
        updatedAt := 1000 } ∧
    alistLookup (ackButtonHandler [] 1000 "user9" "fp1" none true []
        [(alertKey "fp1" none, exStoredCritical)]).dedup (dedupKey "fp1") =
      some (1000 + 1000 * 600) ∧
    (ackButtonHandler [] 1000 "user9" "fp1" none true []
        [(alertKey "fp1" none, exStoredCritical)]).components =
      [troubleshootButtonId "fp1" none, resolveButtonId "fp1" none] := by
  have h := ack_button_behaviour [] 1000 "user9" "fp1" none []
    [(alertKey "fp1" none, exStoredCritical)] exStoredCritical (by decide)
  exact ⟨h.1, h.2.1, h.2.2⟩

/-! ### C10 — resolved / acknowledged field builders -/

theorem filter_map_roundtrip (p : EmbedFieldE → Bool) (l : List EmbedFieldE)
    (hcomm : ∀ f : EmbedFieldE, p (toEmbedField (defaultInlineField f)) = p f) :
    ((((l.filter p).map defaultInlineField).map toEmbedField).filter p).map
        defaultInlineField =
      (l.filter p).map defaultInlineField := by
  induction l with
  | nil => rfl
  | cons f t ih =>
    by_cases hpf : p f
    · simp only [List.filter_cons, hpf, if_pos, List.map_cons, hcomm f]
      rw [ih]
      rfl
    · simp only [List.filter_cons, hpf, if_neg, Bool.false_eq_true, ite_false]
      exact ih

theorem countP_map_filter_zero (p : EmbedFieldE → Bool) (q : ResolvedFieldE → Bool)
    (l : List EmbedFieldE)
    (hq : ∀ f : EmbedFieldE, p f = true → q (defaultInlineField f) = false) :
    ((l.filter p).map defaultInlineField).countP q = 0 := by
  rw [List.countP_eq_zero]
  intro a ha
  obtain ⟨b, hb, rfl⟩ := List.mem_map.mp ha
  have hpb := List.of_mem_filter hb
  simp [hq b hpb]

/-- Claim C10 (confirmed): `buildResolvedFields` carries through every field
except `Status`, `Resolved by` and `Resolved at` in order with `inline`
defaulted to `true`, ends with exactly one `Status` (value `resolved`),
one `Resolved by` and one `Resolved at` in that order, and is idempotent:
re-applying it to its own output with the same user id and timestamp
returns an equal list. `buildAcknowledgedFields` has the analogous
property for `Status` and `Acknowledged by`. -/
theorem build_fields_normalizing_idempotent (f : List EmbedFieldE) (u : String)
    (t : String) :
    (buildResolvedFields f u t =
      (f.filter keepNonResolvedMeta).map defaultInlineField ++
        [⟨"Status", "resolved", true⟩,
         ⟨"Resolved by", "<@" ++ u ++ ">", true⟩,
         ⟨"Resolved at", fmtResolvedAt t, true⟩] ∧
     (∀ x ∈ (f.filter keepNonResolvedMeta).map defaultInlineField,
        x.name ≠ "Status" ∧ x.name ≠ "Resolved by" ∧ x.name ≠ "Resolved at") ∧
     (buildResolvedFields f u t).countP (fun x => x.name = "Status") = 1 ∧
     (buildResolvedFields f u t).countP (fun x => x.name = "Resolved by") = 1 ∧
     (buildResolvedFields f u t).countP (fun x => x.name = "Resolved at") = 1 ∧
     buildResolvedFields ((buildResolvedFields f u t).map toEmbedField) u t =
       buildResolvedFields f u t) ∧
    (buildAcknowledgedFields f u =
      (f.filter keepNonAckMeta).map defaultInlineField ++
        [⟨"Status", "acknowledged", true⟩,
         ⟨"Acknowledged by", "<@" ++ u ++ ">", true⟩] ∧
     (∀ x ∈ (f.filter keepNonAckMeta).map defaultInlineField,
        x.name ≠ "Status" ∧ x.name ≠ "Acknowledged by") ∧
     (buildAcknowledgedFields f u).countP (fun x => x.name = "Status") = 1 ∧
     (buildAcknowledgedFields f u).countP (fun x => x.name = "Acknowledged by") = 1 ∧
     buildAcknowledgedFields ((buildAcknowledgedFields f u).map toEmbedField) u =
       buildAcknowledgedFields f u) := by
  have hmemR : ∀ x ∈ (f.filter keepNonResolvedMeta).map defaultInlineField,
      x.name ≠ "Status" ∧ x.name ≠ "Resolved by" ∧ x.name ≠ "Resolved at" := by
    intro x hx
    obtain ⟨b, hb, rfl⟩ := List.mem_map.mp hx
    have hpb := List.of_mem_filter hb
    simp only [keepNonResolvedMeta, Bool.not_eq_eq_eq_not, Bool.not_true,
      Bool.or_eq_false_iff, decide_eq_false_iff_not] at hpb
    exact ⟨hpb.1.1, hpb.1.2, hpb.2⟩
  have hmemA : ∀ x ∈ (f.filter keepNonAckMeta).map defaultInlineField,
      x.name ≠ "Status" ∧ x.name ≠ "Acknowledged by" := by
    intro x hx
    obtain ⟨b, hb, rfl⟩ := List.mem_map.mp hx
    have hpb := List.of_mem_filter hb
    simp only [keepNonAckMeta, Bool.not_eq_eq_eq_not, Bool.not_true,
      Bool.or_eq_false_iff, decide_eq_false_iff_not] at hpb
    exact ⟨hpb.1, hpb.2⟩
  refine ⟨⟨rfl, hmemR, ?_, ?_, ?_, ?_⟩, ⟨rfl, hmemA, ?_, ?_, ?_⟩⟩
  · rw [buildResolvedFields, List.countP_append,
      countP_map_filter_zero _ _ _ (fun g hg => ?_)]
    · simp [List.countP_cons]
    · have := (List.mem_filter.mpr ⟨List.mem_singleton_self g, hg⟩)
      simp only [keepNonResolvedMeta, Bool.not_eq_eq_eq_not, Bool.not_true,
        Bool.or_eq_false_iff, decide_eq_false_iff_not] at hg
      simp [defaultInlineField, hg.1.1]
  · rw [buildResolvedFields, List.countP_append,
      countP_map_filter_zero _ _ _ (fun g hg => ?_)]
    · simp [List.countP_cons]
    · simp only [keepNonResolvedMeta, Bool.not_eq_eq_eq_not, Bool.not_true,
        Bool.or_eq_false_iff, decide_eq_false_iff_not] at hg
      simp [defaultInlineField, hg.1.2]
  · rw [buildResolvedFields, List.countP_append,
      countP_map_filter_zero _ _ _ (fun g hg => ?_)]
    · simp [List.countP_cons]
    · simp only [keepNonResolvedMeta, Bool.not_eq_eq_eq_not, Bool.not_true,
        Bool.or_eq_false_iff, decide_eq_false_iff_not] at hg
      simp [defaultInlineField, hg.2]
  · rw [buildResolvedFields, buildResolvedFields, List.map_append, List.filter_append,
      List.map_append, filter_map_roundtrip keepNonResolvedMeta f (fun g => rfl)]
    congr 1
    simp [keepNonResolvedMeta, toEmbedField]
  · rw [buildAcknowledgedFields, List.countP_append,
      countP_map_filter_zero _ _ _ (fun g hg => ?_)]
    · simp [List.countP_cons]
    · simp only [keepNonAckMeta, Bool.not_eq_eq_eq_not, Bool.not_true,
        Bool.or_eq_false_iff, decide_eq_false_iff_not] at hg
      simp [defaultInlineField, hg.1]
  · rw [buildAcknowledgedFields, List.countP_append,
      countP_map_filter_zero _ _ _ (fun g hg => ?_)]
    · simp [List.countP_cons]
    · simp only [keepNonAckMeta, Bool.not_eq_eq_eq_not, Bool.not_true,
        Bool.or_eq_false_iff, decide_eq_false_iff_not] at hg
      simp [defaultInlineField, hg.2]
  · rw [buildAcknowledgedFields, buildAcknowledgedFields, List.map_append,
      List.filter_append, List.map_append,
      filter_map_roundtrip keepNonAckMeta f (fun g => rfl)]
    congr 1
    simp [keepNonAckMeta, toEmbedField]

theorem build_fields_normalizing_idempotent_witness :
    buildResolvedFields
        ((buildResolvedFields exEmbedFields "u9" "2024-01-02T03:04:05.678Z").map
          toEmbedField) "u9" "2024-01-02T03:04:05.678Z" =
      buildResolvedFields exEmbedFields "u9" "2024-01-02T03:04:05.678Z" ∧
    buildAcknowledgedFields
        ((buildAcknowledgedFields exEmbedFields "u9").map toEmbedField) "u9" =
      buildAcknowledgedFields exEmbedFields "u9" ∧
    (buildResolvedFields exEmbedFields "u9" "2024-01-02T03:04:05.678Z").countP
      (fun x => x.name = "Status") = 1 := by
  have h := build_fields_normalizing_idempotent exEmbedFields "u9" "2024-01-02T03:04:05.678Z"
  exact ⟨h.1.2.2.2.2.2, h.2.2.2.2.2, h.1.2.2.1⟩

/-! ### C6 — config validation -/

theorem stringElems_map_str (ms : List String) : stringElems (ms.map Json.str) = ms := by
  induction ms with
  | nil => rfl
  | cons s rest ih => simp [stringElems, ih]

theorem jLookup_serialize_channelId (e : AlertTypeConfigV) :
    jLookup (serializeEntryFields e) "channelId" = some (Json.str e.channelId) := by
  simp [serializeEntryFields, jLookup]

theorem mkValidatedEntry_serialize (e : AlertTypeConfigV) :
    mkValidatedEntry (serializeEntryFields e) e.channelId = e := by
  obtain ⟨cid, sw, il, hl, tu, ms⟩ := e
  cases sw <;> cases il <;> cases hl <;> cases tu <;> cases ms <;>
    simp [mkValidatedEntry, serializeEntryFields, optField, jLookup, stringElems_map_str]

theorem validateEntry_serialize (key : String) (e : AlertTypeConfigV) :
    validateEntry key (serializeEntry e) = Except.ok e := by
  simp only [serializeEntry, validateEntry, jLookup_serialize_channelId,
    mkValidatedEntry_serialize]

theorem validateEntries_serialize (c : List (String × AlertTypeConfigV)) :
    validateEntries (c.map (fun kv => (kv.1, serializeEntry kv.2))) = Except.ok c := by
  induction c with
  | nil => rfl
  | cons kv rest ih =>
    simp only [List.map_cons, validateEntries, validateEntry_serialize, ih]

theorem validateEntry_bad {key : String} {v : Json}
    (hbad : isAlertTypeConfigJ v = false) :
    validateEntry key v =
      Except.error ("Entry " ++ key ++ " must be an object with channelId (string)") := by
  cases v with
  | obj fields =>
    simp only [validateEntry]
    simp only [isAlertTypeConfigJ] at hbad
    cases hl : jLookup fields "channelId" with
    | none => rfl
    | some w =>
      rw [hl] at hbad
      cases w with
      | str s => exact Bool.noConfusion hbad
      | null => rfl
      | bool b => rfl
      | num n => rfl
      | arr xs => rfl
      | obj o => rfl
  | null => rfl
  | bool b => rfl
  | num n => rfl
  | str s => rfl
  | arr xs => rfl

theorem validateEntry_ok {key : String} {v : Json} {entry : AlertTypeConfigV}
    (h : validateEntry key v = Except.ok entry) :
    ∃ fields cid, v = Json.obj fields ∧
      jLookup fields "channelId" = some (Json.str cid) ∧
      entry = mkValidatedEntry fields cid := by
  cases v with
  | obj fields =>
    simp only [validateEntry] at h
    cases hl : jLookup fields "channelId" with
    | none => rw [hl] at h; exact absurd h (by simp)
    | some w =>
      rw [hl] at h
      cases w with
      | str s =>
        refine ⟨fields, s, rfl, hl, ?_⟩
        simpa using h.symm
      | null => exact absurd h (by simp)
      | bool b => exact absurd h (by simp)
      | num n => exact absurd h (by simp)
      | arr xs => exact absurd h (by simp)
      | obj o => exact absurd h (by simp)
  | null => exact absurd h (by simp [validateEntry])
  | bool b => exact absurd h (by simp [validateEntry])
  | num n => exact absurd h (by simp [validateEntry])
  | str s => exact absurd h (by simp [validateEntry])
  | arr xs => exact absurd h (by simp [validateEntry])

theorem validateEntries_error {entries : List (String × Json)} {key : String} {v : Json}
    (hmem : (key, v) ∈ entries) (hbad : isAlertTypeConfigJ v = false) :
    ∃ e, validateEntries entries = Except.error e := by
  induction entries with
  | nil => simp at hmem
  | cons kv rest ih =>
    rcases List.mem_cons.mp hmem with heq | hmem2
    · subst heq
      refine ⟨"Entry " ++ key ++ " must be an object with channelId (string)", ?_⟩
      unfold validateEntries
      rw [validateEntry_bad hbad]
    · cases hv : validateEntry kv.1 kv.2 with
      | error e =>
        refine ⟨e, ?_⟩
        conv at hv => rw [show kv = (kv.1, kv.2) from rfl]
        unfold validateEntries
        rw [hv]
      | ok entry =>
        obtain ⟨e, he⟩ := ih hmem2
        refine ⟨e, ?_⟩
        unfold validateEntries
        rw [hv, he]

/-- The pass-through relation between one raw entry and its validated
form. -/
def EntryPassThrough (kv : String × Json) (ke : String × AlertTypeConfigV) : Prop :=
  kv.1 = ke.1 ∧ ∃ fields,
    kv.2 = Json.obj fields ∧
    jLookup fields "channelId" = some (Json.str ke.2.channelId) ∧
    ke.2.suppressWindowMs = jLookup fields "suppressWindowMs" ∧
    ke.2.importantLabels = jLookup fields "importantLabels" ∧
    ke.2.hiddenLabels = jLookup fields "hiddenLabels" ∧
    ke.2.thumbnailUrl = jLookup fields "thumbnailUrl" ∧
    ke.2.mentions = (match jLookup fields "mentions" with
      | some (Json.arr xs) => some (stringElems xs)
      | _ => none)

theorem validateEntries_passThrough {entries : List (String × Json)}
    {c : List (String × AlertTypeConfigV)}
    (h : validateEntries entries = Except.ok c) :
    List.Forall₂ EntryPassThrough entries c := by
  induction entries generalizing c with
  | nil =>
    simp only [validateEntries, Except.ok.injEq] at h
    subst h
    exact List.Forall₂.nil
  | cons kv rest ih =>
    obtain ⟨k2, v2⟩ := kv
    cases hv : validateEntry k2 v2 with
    | error e => simp [validateEntries, hv] at h
    | ok entry =>
      cases hrest : validateEntries rest with
      | error e => simp [validateEntries, hv, hrest] at h
      | ok out =>
        simp only [validateEntries, hv, hrest, Except.ok.injEq] at h
        subst h
        obtain ⟨fields, cid, rfl, hl, rfl⟩ := validateEntry_ok hv
        exact List.Forall₂.cons ⟨rfl, fields, rfl, hl, rfl, rfl, rfl, rfl, rfl⟩
          (ih hrest)

/-- Claim C6 (confirmed): `validateAlertsConfig` rejects `null`, arrays and
non-object primitives; rejects any config containing an entry without a
string `channelId`; on success each produced entry passes the optional
fields through unchanged and filters `mentions` to its string elements;
and validation is the identity on well-typed configs: re-validating the
runtime value of any validated config succeeds and returns an equal
config. -/
theorem validateAlertsConfig_spec :
    (∃ e1, validateAlertsConfig Json.null = Except.error e1) ∧
    (∀ items, ∃ e2, validateAlertsConfig (Json.arr items) = Except.error e2) ∧
    (∀ b, ∃ e3, validateAlertsConfig (Json.bool b) = Except.error e3) ∧
    (∀ n, ∃ e4, validateAlertsConfig (Json.num n) = Except.error e4) ∧
    (∀ s, ∃ e5, validateAlertsConfig (Json.str s) = Except.error e5) ∧
    (∀ entries key v, (key, v) ∈ entries → isAlertTypeConfigJ v = false →
      ∃ e6, validateAlertsConfig (Json.obj entries) = Except.error e6) ∧
    (∀ entries c, validateAlertsConfig (Json.obj entries) = Except.ok c →
      List.Forall₂ EntryPassThrough entries c) ∧
    (∀ c, validateAlertsConfig (serializeAlertsConfig c) = Except.ok c) := by
  refine ⟨⟨_, rfl⟩, fun items => ⟨_, rfl⟩, fun b => ⟨_, rfl⟩, fun n => ⟨_, rfl⟩,
    fun s => ⟨_, rfl⟩, ?_, ?_, ?_⟩
  · intro entries key v hmem hbad
    exact validateEntries_error hmem hbad
  · intro entries c h
    exact validateEntries_passThrough h
  · intro c
    simpa [validateAlertsConfig, serializeAlertsConfig] using validateEntries_serialize c

theorem validateAlertsConfig_spec_witness :
    validateAlertsConfig
        (serializeAlertsConfig
          [("r1", ⟨"c1", some (Json.num 60000), none, none, none, some ["u1"]⟩)]) =
      Except.ok [("r1", ⟨"c1", some (Json.num 60000), none, none, none, some ["u1"]⟩)] ∧
    (∃ e, validateAlertsConfig
        (Json.obj [("bad", Json.str "nope")]) = Except.error e) ∧
    List.Forall₂ EntryPassThrough
      [("r1", Json.obj [("channelId", Json.str "c1"), ("mentions",
          Json.arr [Json.str "u1", Json.num 3])])]
      [("r1", ⟨"c1", none, none, none, none, some ["u1"]⟩)] := by
  refine ⟨validateAlertsConfig_spec.2.2.2.2.2.2.2
      [("r1", ⟨"c1", some (Json.num 60000), none, none, none, some ["u1"]⟩)],
    validateAlertsConfig_spec.2.2.2.2.2.1
      [("bad", Json.str "nope")] "bad" (Json.str "nope") (List.mem_singleton_self _) rfl,
    validateAlertsConfig_spec.2.2.2.2.2.2.1
      [("r1", Json.obj [("channelId", Json.str "c1"), ("mentions",
          Json.arr [Json.str "u1", Json.num 3])])]
      [("r1", ⟨"c1", none, none, none, none, some ["u1"]⟩)] rfl⟩

/-! ### C8 — Grafana `resolvedAt` sentinel handling -/

theorem trimChars_eq_nil_of_all_ws {l : List Char} (h : l.all isWsChar = true) :
    trimChars l = [] := by
  unfold trimChars
  have h1 : l.dropWhile isWsChar = [] := by
    rw [List.dropWhile_eq_nil_iff]
    intro x hx
    exact List.all_eq_true.mp h x hx
  rw [h1]
  rfl

/-- Claim C8 (amended): In webhook normalization the payload's `resolvedAt`
comes from `endsAt` exactly when `endsAt` is meaningful: whitespace-only
(including empty) `endsAt` and `endsAt` whose *trimmed* form begins with
the zero sentinel `0001-01-01T00:00:00` (`T` case-insensitive) give an
absent `resolvedAt`; every other `endsAt` is copied verbatim into
`resolvedAt`. (The claim's stronger "every timestamp whose year is 0001"
is refuted by `resolvedAt_year0001_counterexample`: only the exact zero
instant is treated as absent.) -/
theorem normalized_resolvedAt_amended (alert : NormalizedAlert)
    (config : AlertTypeConfig) :
    (alert.endsAt.data.all isWsChar = true →
      (normalizedToApiPayload alert config).resolvedAt = none) ∧
    (zeroSentinelHead (trimChars alert.endsAt.data) = true →
      (normalizedToApiPayload alert config).resolvedAt = none) ∧
    ((trimChars alert.endsAt.data).isEmpty = false →
      zeroSentinelHead (trimChars alert.endsAt.data) = false →
      (normalizedToApiPayload alert config).resolvedAt = some alert.endsAt) := by
  have hproj : (normalizedToApiPayload alert config).resolvedAt =
      (if isMeaningfulEndsAt alert.endsAt then some alert.endsAt else none) := rfl
  refine ⟨?_, ?_, ?_⟩
  · intro h
    rw [hproj]
    have h0 : trimChars alert.endsAt.data = [] := trimChars_eq_nil_of_all_ws h
    simp [isMeaningfulEndsAt, h0]
  · intro h
    rw [hproj]
    by_cases h0 : (trimChars alert.endsAt.data).isEmpty
    · simp [isMeaningfulEndsAt, h0]
    · simp [isMeaningfulEndsAt, h0, h]
  · intro h0 h1
    rw [hproj]
    simp [isMeaningfulEndsAt, h0, h1]

theorem normalized_resolvedAt_amended_witness :
    (normalizedToApiPayload { exAlertYear0001 with endsAt := "  " }
      (exRule "c1")).resolvedAt = none ∧
    (normalizedToApiPayload { exAlertYear0001 with endsAt := " 0001-01-01t00:00:00Z" }
      (exRule "c1")).resolvedAt = none ∧
    (normalizedToApiPayload { exAlertYear0001 with endsAt := "2024-05-06T07:08:09Z" }
      (exRule "c1")).resolvedAt = some "2024-05-06T07:08:09Z" := by
  exact ⟨(normalized_resolvedAt_amended _ _).1 (by decide),
    (normalized_resolvedAt_amended _ _).2.1 (by decide),
    (normalized_resolvedAt_amended _ _).2.2 (by decide) (by decide)⟩

/-- Claim C8, counterexample: A timestamp with year 0001 that is not the
exact zero instant (`0001-03-01T00:00:00Z`) is treated as meaningful:
`resolvedAt` is set, not absent as the claim requires. -/
theorem resolvedAt_year0001_counterexample :
    exAlertYear0001.endsAt.data.take 5 = "0001-".data ∧
    (normalizedToApiPayload exAlertYear0001 (exRule "c1")).resolvedAt =
      some "0001-03-01T00:00:00Z" := by
  exact ⟨rfl, rfl⟩

/-! ### C7 — SNS event-name derivation -/

/-- Claim C7 (amended): `deriveEventName` picks the first candidate in the
order `Subject`, `MessageAttributes.event_type.Value`,
`MessageAttributes.rule_name.Value` — each counting only when it contains
a non-whitespace character — then, with all three blank, the first
*non-empty* string among the parsed `Message`'s `detail-type`, `source`,
`eventName`; the chosen name is first trimmed and then each whitespace run
is replaced by `_`, except that a whitespace-only chosen `Message` field
yields the literal `"sns"`; with no candidate (including an unparseable or
non-object `Message`) the result is `"sns"`. (The frozen claim — untrimmed
underscore replacement, and fields counting whenever non-empty with
whitespace runs underscored — is refuted by
`deriveEventName_counterexample`.) -/
theorem deriveEventName_amended (parseJson : String → Option Json)
    (env : SnsNotificationEnvelope) :
    (optTrimTruthy env.Subject = true →
      deriveEventName parseJson env =
        ⟨squashWs (trimChars (env.Subject.getD "").data)⟩) ∧
    (optTrimTruthy env.Subject = false →
      optTrimTruthy (attrValue env "event_type") = true →
      deriveEventName parseJson env =
        ⟨squashWs (trimChars ((attrValue env "event_type").getD "").data)⟩) ∧
    (optTrimTruthy env.Subject = false →
      optTrimTruthy (attrValue env "event_type") = false →
      optTrimTruthy (attrValue env "rule_name") = true →
      deriveEventName parseJson env =
        ⟨squashWs (trimChars ((attrValue env "rule_name").getD "").data)⟩) ∧
    (optTrimTruthy env.Subject = false →
      optTrimTruthy (attrValue env "event_type") = false →
      optTrimTruthy (attrValue env "rule_name") = false →
      (∀ o s, parseJson env.Message = some (Json.obj o) →
        firstNonEmptyStrField o ["detail-type", "source", "eventName"] = some s →
        deriveEventName parseJson env =
          (if (trimChars s.data).isEmpty then DEFAULT_EVENT_NAME
           else ⟨squashWs (trimChars s.data)⟩)) ∧
      (∀ o, parseJson env.Message = some (Json.obj o) →
        firstNonEmptyStrField o ["detail-type", "source", "eventName"] = none →
        deriveEventName parseJson env = "sns") ∧
      (parseJson env.Message = none → deriveEventName parseJson env = "sns") ∧
      (∀ j, parseJson env.Message = some j → (∀ o, j ≠ Json.obj o) →
        deriveEventName parseJson env = "sns")) := by
  refine ⟨?_, ?_, ?_, ?_⟩
  · intro h1
    cases hs : env.Subject with
    | none => rw [hs] at h1; exact absurd h1 (by simp [optTrimTruthy])
    | some s0 =>
      rw [hs] at h1
      have hne : (trimChars s0.data).isEmpty = false := by
        simpa [optTrimTruthy] using h1
      simp [deriveEventName, hs, optTrimTruthy, hne, normalizeEventName]
  · intro h1 h2
    cases ha : attrValue env "event_type" with
    | none => rw [ha] at h2; exact absurd h2 (by simp [optTrimTruthy])
    | some s0 =>
      rw [ha] at h2
      have hne : ¬(trimChars s0.data = []) := by
        simpa [optTrimTruthy] using h2
      simp [deriveEventName, h1, ha, h2, hne, normalizeEventName]
  · intro h1 h2 h3
    cases ha : attrValue env "rule_name" with
    | none => rw [ha] at h3; exact absurd h3 (by simp [optTrimTruthy])
    | some s0 =>
      rw [ha] at h3
      have hne : ¬(trimChars s0.data = []) := by
        simpa [optTrimTruthy] using h3
      simp [deriveEventName, h1, h2, ha, h3, hne, normalizeEventName]
  · intro h1 h2 h3
    refine ⟨?_, ?_, ?_, ?_⟩
    · intro o s hp hf
      simp [deriveEventName, h1, h2, h3, hp, hf, normalizeEventName,
        DEFAULT_EVENT_NAME]
    · intro o hp hf
      simp [deriveEventName, h1, h2, h3, hp, hf, DEFAULT_EVENT_NAME]
    · intro hp
      simp [deriveEventName, h1, h2, h3, hp, DEFAULT_EVENT_NAME]
    · intro j hp hno
      cases j with
      | obj o => exact absurd rfl (hno o)
      | null => simp [deriveEventName, h1, h2, h3, hp, DEFAULT_EVENT_NAME]
      | bool b => simp [deriveEventName, h1, h2, h3, hp, DEFAULT_EVENT_NAME]
      | num n => simp [deriveEventName, h1, h2, h3, hp, DEFAULT_EVENT_NAME]
      | str s => simp [deriveEventName, h1, h2, h3, hp, DEFAULT_EVENT_NAME]
      | arr xs => simp [deriveEventName, h1, h2, h3, hp, DEFAULT_EVENT_NAME]

theorem deriveEventName_amended_witness :
    deriveEventName (fun _ => none) exEnvSubjectWs = "a_b" ∧
    deriveEventName (fun _ => none) exEnvColonFree = "x" := by
  constructor
  · exact ((deriveEventName_amended (fun _ => none) exEnvSubjectWs).1
      (by decide)).trans (by decide)
  · exact ((deriveEventName_amended (fun _ => none) exEnvColonFree).1
      (by decide)).trans (by decide)

/-- Claim C7, counterexample: An envelope with no `Subject` or attributes
whose `Message` parses to `{"detail-type": " ", "source": "aws.ec2"}`:
the first non-empty candidate is the whitespace-only `detail-type`, and
the code returns the literal `"sns"` — neither that candidate with its
whitespace run replaced by `_` (which would be `"_"`), nor a fall-through
to the next candidate `"aws.ec2"`, as the claim would require under
either reading of "non-empty". A `Subject` of `" a b "` likewise yields
`"a_b"`, not the claim's `"_a_b_"`. -/
theorem deriveEventName_counterexample :
    deriveEventName exParseBlankDetailType exEnvBlankDetailType = "sns" ∧
    (⟨squashWs " ".data⟩ : String) = "_" ∧
    ("sns" : String) ≠ "_" ∧ ("sns" : String) ≠ "aws.ec2" ∧
    deriveEventName (fun _ => none) exEnvSubjectWs = "a_b" ∧
    (⟨squashWs " a b ".data⟩ : String) = "_a_b_" ∧
    ("a_b" : String) ≠ "_a_b_" := by
  refine ⟨by decide, by decide, by decide, by decide, by decide, by decide, by decide⟩

/-! ### C9 — SNS alert ids -/

theorem strData_append (a b : String) : (a ++ b).data = a.data ++ b.data := rfl

theorem strData_inj {a b : String} (h : a.data = b.data) : a = b := by
  cases a
  cases b
  exact congrArg String.mk h

theorem sns_alertId_construction (parseJson : String → Option Json)
    (cfg : AlertsConfig) (nowIso : String) (env : SnsNotificationEnvelope)
    (p : AlertApiPayload)
    (h : snsEnvelopeToAlertPayload parseJson cfg nowIso env = some p) :
    p.alertId = env.MessageId ++ (match parseResource parseJson env with
      | some r => if r ≠ "" then ":" ++ strTake r 64 else ""
      | none => "") := by
  unfold snsEnvelopeToAlertPayload at h
  cases hc : alistLookup cfg (deriveEventName parseJson env) with
  | none => simp [hc] at h
  | some config =>
    simp only [hc] at h
    by_cases hch : config.channelId = ""
    · rw [if_pos hch] at h
      exact absurd h (by simp)
    · rw [if_neg hch] at h
      injection h with h2
      rw [← h2]

theorem append_ne_of_ne_colonfree {m1 m2 s1 s2 : List Char}
    (hm1 : ':' ∉ m1) (hm2 : ':' ∉ m2) (hne : m1 ≠ m2)
    (hs1 : s1 = [] ∨ ∃ t, s1 = ':' :: t) (hs2 : s2 = [] ∨ ∃ t, s2 = ':' :: t) :
    m1 ++ s1 ≠ m2 ++ s2 := by
  induction m1 generalizing m2 with
  | nil =>
    cases m2 with
    | nil => exact absurd rfl hne
    | cons c2 t2 =>
      intro h
      simp only [List.nil_append, List.cons_append] at h
      rcases hs1 with rfl | ⟨t, rfl⟩
      · exact List.noConfusion h
      · injection h with hc _
        exact hm2 (hc ▸ List.mem_cons_self c2 t2)
  | cons c1 t1 ih =>
    cases m2 with
    | nil =>
      intro h
      simp only [List.nil_append, List.cons_append] at h
      rcases hs2 with rfl | ⟨t, rfl⟩
      · exact List.noConfusion h
      · injection h with hc _
        exact hm1 (hc.symm ▸ List.mem_cons_self c1 t1)
    | cons c2 t2 =>
      intro h
      simp only [List.cons_append] at h
      injection h with hc ht
      have hne2 : t1 ≠ t2 := by
        intro he
        exact hne (by rw [hc, he])
      exact ih (fun hx => hm1 (List.mem_cons_of_mem _ hx))
        (fun hx => hm2 (List.mem_cons_of_mem _ hx)) hne2 ht

theorem sns_suffix_shape (ropt : Option String) :
    ((match ropt with
      | some r => if r ≠ "" then ":" ++ strTake r 64 else ""
      | none => ("" : String)) : String).data = [] ∨
    ∃ t, ((match ropt with
      | some r => if r ≠ "" then ":" ++ strTake r 64 else ""
      | none => ("" : String)) : String).data = ':' :: t := by
  cases ropt with
  | none => exact Or.inl rfl
  | some r =>
    by_cases hr : r = ""
    · simp [hr]
    · simp only [hr, ne_eq, not_false_iff, if_true]
      exact Or.inr ⟨(strTake r 64).data, rfl⟩

theorem sns_alertId_distinct (parseJson : String → Option Json)
    (cfg : AlertsConfig) (nowIso : String) (e1 e2 : SnsNotificationEnvelope)
    (hNe : e1.MessageId ≠ e2.MessageId)
    (hc1 : ':' ∉ e1.MessageId.data) (hc2 : ':' ∉ e2.MessageId.data) :
    ∀ p1 p2, snsEnvelopeToAlertPayload parseJson cfg nowIso e1 = some p1 →
      snsEnvelopeToAlertPayload parseJson cfg nowIso e2 = some p2 →
      p1.alertId ≠ p2.alertId := by
  intro p1 p2 h1 h2 heq
  rw [sns_alertId_construction parseJson cfg nowIso e1 p1 h1,
    sns_alertId_construction parseJson cfg nowIso e2 p2 h2] at heq
  have hdata := congrArg String.data heq
  rw [strData_append, strData_append] at hdata
  exact append_ne_of_ne_colonfree hc1 hc2
    (fun hd => hNe (strData_inj hd))
    (sns_suffix_shape (parseResource parseJson e1))
    (sns_suffix_shape (parseResource parseJson e2)) hdata

/-- Claim C9 (amended): Every payload produced by
`snsEnvelopeToAlertPayload` has `alertId` equal to the envelope's
`MessageId`, with `":"` plus the first 64 characters of the derived
resource appended when a non-empty resource is derived; hence any two
envelopes with distinct *colon-free* `MessageId`s produce distinct
`alertId`s. (For arbitrary distinct `MessageId`s the claim is refuted by
`sns_alertId_counterexample`: a `MessageId` containing `":"` can collide
with another `MessageId`'s resource suffix.) -/
theorem sns_alertId_spec :
    (∀ (parseJson : String → Option Json) (cfg : AlertsConfig) (nowIso : String)
      (env : SnsNotificationEnvelope) (p : AlertApiPayload),
      snsEnvelopeToAlertPayload parseJson cfg nowIso env = some p →
      p.alertId = env.MessageId ++ (match parseResource parseJson env with
        | some r => if r ≠ "" then ":" ++ strTake r 64 else ""
        | none => "")) ∧
    (∀ (parseJson : String → Option Json) (cfg : AlertsConfig) (nowIso : String)
      (e1 e2 : SnsNotificationEnvelope),
      e1.MessageId ≠ e2.MessageId →
      ':' ∉ e1.MessageId.data → ':' ∉ e2.MessageId.data →
      ∀ p1 p2, snsEnvelopeToAlertPayload parseJson cfg nowIso e1 = some p1 →
        snsEnvelopeToAlertPayload parseJson cfg nowIso e2 = some p2 →
        p1.alertId ≠ p2.alertId) :=
  ⟨sns_alertId_construction, sns_alertId_distinct⟩

theorem sns_alertId_spec_witness :
    ((snsEnvelopeToAlertPayload exParseColon exCfgX "t0" exEnvColon1).get
        (by decide)).alertId ≠
    ((snsEnvelopeToAlertPayload exParseColon exCfgX "t0" exEnvColonFree).get
        (by decide)).alertId := by
  exact sns_alertId_spec.2 exParseColon exCfgX "t0" exEnvColon1 exEnvColonFree
    (by decide) (by decide) (by decide) _ _
    (Option.some_get _).symm (Option.some_get _).symm

/-- Claim C9, counterexample: Envelopes with the distinct `MessageId`s `"a"`
and `"a:b"` — where the first one's `Message` yields the resource `"b"`
and the second one's is unparseable — both produce the `alertId`
`"a:b"`, refuting the claim's unconditional distinctness. -/
theorem sns_alertId_counterexample :
    exEnvColon1.MessageId ≠ exEnvColon2.MessageId ∧
    (snsEnvelopeToAlertPayload exParseColon exCfgX "t0" exEnvColon1).map
      (fun p => p.alertId) = some "a:b" ∧
    (snsEnvelopeToAlertPayload exParseColon exCfgX "t0" exEnvColon2).map
      (fun p => p.alertId) = some "a:b" := by
  refine ⟨by decide, rfl, rfl⟩

end DiscordAlertingBot
